import Mathlib

/-!
Banquette: credential store, account provisioner and request handlers.

A shallow embedding of `pkg/models/dbstore.go` (the token store kept in MySQL),
`pkg/databases/oracle/oracle.go` (the provisioner that talks to the target
Oracle database) and `pkg/handler` (the create, drop, register, update and
unregister flows over the two interfaces), followed by theorems about them.

Conventions of the embedding.

* A Go `error` is its message (`String`); `nil` is `none`.
* The store is the content of the two tables the statements name, `tokens` and
  `bookmarks`, as row lists in insertion order.  Every statement acts on
  exactly the table its text names.
* A `where column=?` selects the rows whose column equals the argument as a
  string; `QueryRow` yields the first selected row.
* `database/sql` calls are modelled by one definition per statement text; the
  statement issued is also recorded in a trace, so that "issues no delete" is a
  statement about the trace.
* The store's statements do not fault at driver level; the error branches of
  the source are kept where they stand.  The target database of the
  provisioner has a schedule of injected faults, because the source reacts to
  failures of its statements.
-/

set_option autoImplicit false

namespace Banquette

deriving instance DecidableEq for Except

/-! ## `database/sql` errors seen by the source -/

/-- Errors that `QueryRow(...).Scan` hands to the source. -/
inductive SqlError where
  /-- `sql.ErrNoRows`: the query selected no row. -/
  | noRows
  /-- Scanning an SQL `NULL` into a Go `string`. -/
  | scanNull
  deriving DecidableEq, Repr

/-- The text `%v` prints for the error.  The scan error is abridged (the driver
also names the column); the source only embeds the text in its own message. -/
def SqlError.msg : SqlError → String
  | .noRows => "sql: no rows in result set"
  | .scanNull => "sql: Scan error on column index 0: converting NULL to string is unsupported"

namespace models

/-- Type `Database`: "Database contains database connect information" (dbstore.go).
The field `Type` of the source is spelled `Typ`. -/
structure Database where
  Token : String
  Typ : String
  DBAddr : String
  DBName : String
  Username : String
  Password : String
  deriving DecidableEq, Repr

/-- Modelled from the spec: the declaration of the table `tokens` is not among
the sources; the spec calls it "a credential table keyed by token with an
internal numeric id".  The columns are those the statements of dbstore.go name;
`password` holds the output of `AES_ENCRYPT`. -/
structure TokenRow where
  id : Nat
  token : String
  typ : String
  dbaddr : String
  dbname : String
  username : String
  password : String
  deriving DecidableEq, Repr

/-- Modelled from the spec: the declaration of the table `bookmarks` is not
among the sources; the spec calls it "a bookmark table with a foreign key to
that internal id plus an account name column".  The columns are those the
statements of dbstore.go name. -/
structure BookmarkRow where
  token_id : Nat
  dbname : String
  deriving DecidableEq, Repr

/-- The content of the datastore behind `models.DB`.  `nextID` is the value the
store assigns to the column `id` of the next inserted token row (the
`INSERT` of the source does not supply it). -/
structure DB where
  tokens : List TokenRow
  bookmarks : List BookmarkRow
  nextID : Nat
  deriving DecidableEq, Repr

/-- MySQL's `AES_ENCRYPT(str, key)` and `AES_DECRYPT(crypt, key)`, which the
source calls inside its statements.  `AES_DECRYPT` yields `NULL` (`none`) when
it detects invalid data or padding. -/
structure AES where
  encrypt : String → String → String
  decrypt : String → String → Option String

/-- The statements dbstore.go sends to the store. -/
inductive Stmt where
  | selectPassword (key token : String)
  | selectInfo (token : String)
  | insertBookmark (tokenID : Nat) (username : String)
  | deleteBookmark (tokenID : Nat) (username : String)
  | selectID (token : String)
  | insertToken (token typ dbaddr dbname username password key : String)
  | countDB (dbaddr dbname : String)
  | updateTokens (token typ dbaddr dbname username password key : String)
  | deleteToken (token : String)
  deriving DecidableEq, Repr

/-- The statement text of the source (`tokenTable = "tokens"`,
`bookmarkTable = "bookmarks"`). -/
def Stmt.sql : Stmt → String
  | .selectPassword _ _ => "SELECT AES_DECRYPT(password, ?) from tokens where token=?"
  | .selectInfo _ => "SELECT type, dbaddr, dbname, username from tokens where token=?"
  | .insertBookmark _ _ => "INSERT INTO bookmarks (token_id, dbname) values (?, ?)"
  | .deleteBookmark _ _ => "DELETE FROM bookmarks where token_id=? and dbname=?"
  | .selectID _ => "SELECT id from tokens where token=?"
  | .insertToken _ _ _ _ _ _ _ =>
    "INSERT INTO tokens (token, type, dbaddr, dbname, username, password) values (?, ?, ?, ?, ?, AES_ENCRYPT(?, ?))"
  | .countDB _ _ => "SELECT count(*) FROM tokens where dbaddr=? and dbname=?"
  | .updateTokens _ _ _ _ _ _ _ =>
    "UPDATE tokens set token=?, type=?, dbaddr=?, dbname=?, username=?, password=AES_ENCRYPT(?, ?)"
  | .deleteToken _ => "DELETE from tokens where token=?"

/-- What a method of `*DB` returns with an `error`: the error, the store
afterwards and the statements it issued, in order. -/
structure Result where
  err : Option String
  db : DB
  trace : List Stmt
  deriving DecidableEq, Repr

/-! ### The statements -/

/-- Statement `SELECT AES_DECRYPT(password, ?) from tokens where token=?` scanned into a
`string`: the first selected row; no row is `sql.ErrNoRows`, a `NULL` cannot be
scanned. -/
def queryPassword (aes : AES) (db : DB) (key token : String) : Except SqlError String :=
  match db.tokens.find? (fun r => r.token == token) with
  | none => .error .noRows
  | some r =>
    match aes.decrypt r.password key with
    | none => .error .scanNull
    | some p => .ok p

/-- Statement `SELECT type, dbaddr, dbname, username from tokens where token=?`. -/
def queryInfo (db : DB) (token : String) : Except SqlError (String × String × String × String) :=
  match db.tokens.find? (fun r => r.token == token) with
  | none => .error .noRows
  | some r => .ok (r.typ, r.dbaddr, r.dbname, r.username)

/-- Statement `SELECT id from tokens where token=?`. -/
def queryID (db : DB) (token : String) : Except SqlError Nat :=
  match db.tokens.find? (fun r => r.token == token) with
  | none => .error .noRows
  | some r => .ok r.id

/-- Statement `SELECT count(*) FROM tokens where dbaddr=? and dbname=?`: always one row. -/
def queryCount (db : DB) (dbaddr dbname : String) : Except SqlError Nat :=
  .ok (db.tokens.countP (fun r => r.dbaddr == dbaddr && r.dbname == dbname))

/-- Statement `INSERT INTO bookmarks (token_id, dbname) values (?, ?)`. -/
def execInsertBookmark (db : DB) (tokenID : Nat) (username : String) : Except String DB :=
  .ok { db with bookmarks := db.bookmarks ++ [{ token_id := tokenID, dbname := username }] }

/-- Statement `DELETE FROM bookmarks where token_id=? and dbname=?`. -/
def execDeleteBookmark (db : DB) (tokenID : Nat) (username : String) : Except String DB :=
  .ok { db with
    bookmarks := db.bookmarks.filter (fun b => !(b.token_id == tokenID && b.dbname == username)) }

/-- Statement `INSERT INTO tokens (token, type, dbaddr, dbname, username, password)
values (?, ?, ?, ?, ?, AES_ENCRYPT(?, ?))`; the store assigns `id`. -/
def execInsertToken (aes : AES) (db : DB)
    (token typ dbaddr dbname username password key : String) : Except String DB :=
  .ok { db with
    tokens := db.tokens ++ [{ id := db.nextID, token := token, typ := typ, dbaddr := dbaddr,
                              dbname := dbname, username := username,
                              password := aes.encrypt password key }]
    nextID := db.nextID + 1 }

/-- Statement `UPDATE tokens set token=?, type=?, dbaddr=?, dbname=?, username=?,
password=AES_ENCRYPT(?, ?)`: the statement has no `where`, it sets the columns
of every row. -/
def execUpdateTokens (aes : AES) (db : DB)
    (token typ dbaddr dbname username password key : String) : Except String DB :=
  .ok { db with
    tokens := db.tokens.map (fun r =>
      { r with token := token, typ := typ, dbaddr := dbaddr, dbname := dbname,
               username := username, password := aes.encrypt password key }) }

/-- Statement `DELETE from tokens where token=?`. -/
def execDeleteToken (db : DB) (token : String) : Except String DB :=
  .ok { db with tokens := db.tokens.filter (fun r => !(r.token == token)) }

/-! ### The methods of `*DB` (dbstore.go)

`databaseSecret`, the package variable set by `NewDB`, is the parameter `key`. -/

/-- Go `func (db *DB) Get(token string) (*Database, error)`.  The returned value has
the zero `Token`: the source scans no column into it. -/
def Get (aes : AES) (key : String) (db : DB) (token : String) : Except String Database :=
  match queryPassword aes db key token with
  | .error err => .error ("could not decode password, check your database secret: " ++ err.msg)
  | .ok password =>
    match queryInfo db token with
    | .error err => .error ("could not get token information: " ++ err.msg)
    | .ok (typ, dbaddr, dbname, username) =>
      .ok { Token := "", Typ := typ, DBAddr := dbaddr, DBName := dbname,
            Username := username, Password := password }

/-- Go `func (db *DB) getTokenID(token string) (int, error)`. -/
def getTokenID (db : DB) (token : String) : Except String Nat :=
  match queryID db token with
  | .error err => .error ("could not get tokenID: " ++ err.msg)
  | .ok tokenID => .ok tokenID

/-- Go `func (db *DB) BookmarkUser(token, username string) error`. -/
def BookmarkUser (db : DB) (token username : String) : Result :=
  match getTokenID db token with
  | .error err => { err := some err, db := db, trace := [.selectID token] }
  | .ok tokenID =>
    match execInsertBookmark db tokenID username with
    | .error err =>
      { err := some err, db := db, trace := [.selectID token, .insertBookmark tokenID username] }
    | .ok db1 =>
      { err := none, db := db1, trace := [.selectID token, .insertBookmark tokenID username] }

/-- Go `func (db *DB) UnBookmarkUser(token, username string) error`. -/
def UnBookmarkUser (db : DB) (token username : String) : Result :=
  match getTokenID db token with
  | .error err => { err := some err, db := db, trace := [.selectID token] }
  | .ok tokenID =>
    match execDeleteBookmark db tokenID username with
    | .error err =>
      { err := some err, db := db, trace := [.selectID token, .deleteBookmark tokenID username] }
    | .ok db1 =>
      { err := none, db := db1, trace := [.selectID token, .deleteBookmark tokenID username] }

/-- Go `func generateToken(args ...interface{}) (string, error)`: the hexadecimal
SHA-256 digest of `fmt.Sprint(args...) + strconv.Itoa(r.Int())`.  `sum256hex` is
the digest function of `crypto/sha256` printed with `%x`, `rnd` the value
`r.Int()` draws from the generator seeded with the clock.  The arguments are
strings, between which `fmt.Sprint` puts no space.  `hash.Hash.Write` returns
no error. -/
def generateToken (sum256hex : String → String) (rnd : Nat) (args : List String) :
    Except String String :=
  .ok (sum256hex (String.join args ++ toString rnd))

/-- Go `func (db *DB) checkDB(dbaddr, dbname string) error`. -/
def checkDB (db : DB) (dbaddr dbname : String) : Option String :=
  match queryCount db dbaddr dbname with
  | .error err => some ("could not connect token database: " ++ err.msg)
  | .ok count =>
    if count > 0 then some "database token already exists" else none

/-- Go `func (db *DB) RegisterDatabase(data *Database) error`: the result and the
request as the method leaves it (`data.Type` and `data.Token` are assigned). -/
def RegisterDatabase (aes : AES) (key : String) (sum256hex : String → String) (rnd : Nat)
    (db : DB) (data : Database) : Result × Database :=
  let data := { data with Typ := "oracle" }
  match checkDB db data.DBAddr data.DBName with
  | some err => ({ err := some err, db := db, trace := [.countDB data.DBAddr data.DBName] }, data)
  | none =>
    match generateToken sum256hex rnd [data.DBAddr, data.DBName] with
    | .error err =>
      ({ err := some ("could not generate token: " ++ err), db := db,
         trace := [.countDB data.DBAddr data.DBName] }, { data with Token := "" })
    | .ok token =>
      let data := { data with Token := token }
      let stmts := [Stmt.countDB data.DBAddr data.DBName,
        Stmt.insertToken data.Token data.Typ data.DBAddr data.DBName data.Username
          data.Password key]
      match execInsertToken aes db data.Token data.Typ data.DBAddr data.DBName data.Username
          data.Password key with
      | .error err => ({ err := some ("could not store token: " ++ err), db := db,
                         trace := stmts }, data)
      | .ok db1 => ({ err := none, db := db1, trace := stmts }, data)

/-- Go `func (db *DB) UpdateDatabase(data *Database) error`. -/
def UpdateDatabase (aes : AES) (key : String) (db : DB) (data : Database) : Result :=
  let stmts := [Stmt.updateTokens data.Token data.Typ data.DBAddr data.DBName data.Username
    data.Password key]
  match execUpdateTokens aes db data.Token data.Typ data.DBAddr data.DBName data.Username
      data.Password key with
  | .error err => { err := some ("could not update token: " ++ err), db := db, trace := stmts }
  | .ok db1 => { err := none, db := db1, trace := stmts }

/-- Go `func (db *DB) UnregisterDatabase(data *Database) error`. -/
def UnregisterDatabase (db : DB) (data : Database) : Result :=
  match getTokenID db data.Token with
  | .error err => { err := some err, db := db, trace := [.selectID data.Token] }
  | .ok _ =>
    match execDeleteToken db data.Token with
    | .error err =>
      { err := some ("could not delete token: " ++ err), db := db,
        trace := [.selectID data.Token, .deleteToken data.Token] }
    | .ok db1 =>
      { err := none, db := db1, trace := [.selectID data.Token, .deleteToken data.Token] }

/-- The store before anything was registered. -/
def emptyDB : DB := { tokens := [], bookmarks := [], nextID := 1 }

/-- A cipher for evaluating the definitions on concrete inputs: the cipher text
is the key followed by the plain text, and decryption fails unless the cipher
text starts with the key. -/
def toyAES : AES where
  encrypt := fun str key => String.mk (key.data ++ str.data)
  decrypt := fun crypt key =>
    if key.data.isPrefixOf crypt.data then some (String.mk (crypt.data.drop key.data.length))
    else none

end models

namespace oracle

/-! ## The account provisioner (oracle.go)

The target database is an Oracle server outside the repository.  It is
modelled by the part of its catalogue the statements of oracle.go act on, with
the documented outcome of each statement on that catalogue, and by a schedule of
faults that makes a statement fail for any other reason (lost connection,
missing privilege, objects still in a tablespace, ...). -/

/-- The statements oracle.go sends to the target database. -/
inductive Stmt where
  | createTablespace (tablespace : String)
  | createUser (username tablespace password : String)
  | dropTablespace (tablespace : String)
  | grantGSB (username : String)
  | dropUser (username : String)
  deriving DecidableEq, Repr

/-- The statement text the source builds by concatenation. -/
def Stmt.sql : Stmt → String
  | .createTablespace tablespace =>
    "CREATE bigfile tablespace " ++ tablespace ++ " datafile size 100M autoextend on next 100M"
  | .createUser username tablespace password =>
    "CREATE user " ++ username ++ " profile APPUSERS default tablespace " ++ tablespace ++
      " identified by " ++ password ++ " account unlock quota unlimited on " ++ tablespace
  | .dropTablespace tablespace => "DROP tablespace " ++ tablespace
  | .grantGSB username => "GRANT GSB to " ++ username
  | .dropUser username => "DROP user " ++ username

/-- The catalogue of the target database: the storage objects (tablespaces),
the accounts, whether the role `GSB` exists, and the accounts holding it. -/
structure Target where
  tablespaces : List String
  users : List String
  roleGSB : Bool
  granted : List String
  deriving DecidableEq, Repr

/-- The outcome of a statement on the catalogue. -/
def Target.run (t : Target) : Stmt → Except String Target
  | .createTablespace tablespace =>
    if tablespace ∈ t.tablespaces then .error "ORA-01543: tablespace already exists"
    else .ok { t with tablespaces := t.tablespaces ++ [tablespace] }
  | .createUser username tablespace _ =>
    if username ∈ t.users then .error "ORA-01920: user name conflicts with another user or role name"
    else if tablespace ∉ t.tablespaces then .error "ORA-00959: tablespace does not exist"
    else .ok { t with users := t.users ++ [username] }
  | .dropTablespace tablespace =>
    if tablespace ∈ t.tablespaces then
      .ok { t with tablespaces := t.tablespaces.filter (fun n => !(n == tablespace)) }
    else .error "ORA-00959: tablespace does not exist"
  | .grantGSB username =>
    if !t.roleGSB then .error "ORA-01919: role does not exist"
    else if username ∉ t.users then .error "ORA-01917: user or role does not exist"
    else .ok { t with granted := t.granted ++ [username] }
  | .dropUser username =>
    if username ∈ t.users then
      .ok { t with users := t.users.filter (fun n => !(n == username)),
                   granted := t.granted.filter (fun n => !(n == username)) }
    else .error "ORA-01918: user does not exist"

/-- The handle `oracle.DB` with what is behind it: the target database, the
faults awaiting the next statements (`some e`: the statement fails with `e` and
has no effect; `none` or an exhausted schedule: the statement runs on the
catalogue), and the statements issued so far. -/
structure DB where
  target : Target
  faults : List (Option String)
  log : List Stmt
  deriving DecidableEq, Repr

/-- Call `db.Exec(query)`: the error and the handle afterwards. -/
def Exec (db : DB) (stmt : Stmt) : Option String × DB :=
  match db.faults.headD none with
  | some e => (some e, { db with faults := db.faults.tail, log := db.log ++ [stmt] })
  | none =>
    match db.target.run stmt with
    | .error e => (some e, { db with faults := db.faults.tail, log := db.log ++ [stmt] })
    | .ok t => (none, { target := t, faults := db.faults.tail, log := db.log ++ [stmt] })

/-- The order in which `range` visits the entries of a Go map: some
rearrangement of them, chosen by the runtime. -/
abbrev MapRange := List (String × String) → List (String × String)

/-- Go `func notEmpty(args map[string]string) error`, over the entries in the order
`range` visits them. -/
def notEmpty : List (String × String) → Option String
  | [] => none
  | (key, value) :: rest =>
    if value.utf8ByteSize ≤ 0 then some (key ++ " is missing") else notEmpty rest

/-- Go `func (db *DB) CreateUser(username, password string) error`. -/
def CreateUser (range : MapRange) (db : DB) (username password : String) : Option String × DB :=
  match notEmpty (range [("username", username), ("password", password)]) with
  | some err => (some err, db)
  | none =>
    let tablespace := username
    match Exec db (.createTablespace tablespace) with
    | (some err, db1) =>
      (some ("could not create tablespace (" ++ tablespace ++ "): " ++ err), db1)
    | (none, db1) =>
      match Exec db1 (.createUser username tablespace password) with
      | (some err, db2) =>
        match Exec db2 (.dropTablespace tablespace) with
        | (some err, db3) =>
          (some ("could not drop tablespace (" ++ tablespace ++
            ") after user creation failed: " ++ err), db3)
        | (none, db3) => (some ("could not create user (" ++ username ++ "): " ++ err), db3)
      | (none, db2) =>
        match Exec db2 (.grantGSB username) with
        | (some err, db3) => (some ("could not grant role GSB to " ++ username ++ ": " ++ err), db3)
        | (none, db3) => (none, db3)

/-- Go `func (db *DB) DropUser(username string) error`. -/
def DropUser (db : DB) (username : String) : Option String × DB :=
  match Exec db (.dropUser username) with
  | (some err, db1) => (some ("could not drop user (" ++ username ++ "): " ++ err), db1)
  | (none, db1) =>
    match Exec db1 (.dropTablespace username) with
    | (some err, db2) => (some ("could not drop tablespace (" ++ username ++ "): " ++ err), db2)
    | (none, db2) => (none, db2)

/-- A target database with nothing in it but the role `GSB`, reached over a
connection on which nothing was issued and no fault is pending. -/
def freshDB : DB :=
  { target := { tablespaces := [], users := [], roleGSB := true, granted := [] },
    faults := [], log := [] }

end oracle

/-! ## The interfaces between the packages -/

namespace models

/-- Go `type Datastore interface` (db.go), over the state `σ` of an
implementation.  A method that has a pointer receiver returns the state it
leaves; `RegisterDatabase` also returns the request, which it is handed by
pointer and which its caller reads afterwards.  `Close` releases the handle and
is left out. -/
structure Datastore (σ : Type) where
  Get : σ → String → Except String Database
  BookmarkUser : σ → String → String → Option String × σ
  UnBookmarkUser : σ → String → String → Option String × σ
  RegisterDatabase : σ → Database → Option String × σ × Database
  UpdateDatabase : σ → Database → Option String × σ
  UnregisterDatabase : σ → Database → Option String × σ

/-- The implementation `*models.DB` of `Datastore`: the methods of dbstore.go
under the cipher, the key and, for `RegisterDatabase`, the digest and the number
the generator draws. -/
def asDatastore (aes : AES) (key : String) (sum256hex : String → String) (rnd : Nat) :
    Datastore DB where
  Get := fun db token => Get aes key db token
  BookmarkUser := fun db token username =>
    ((BookmarkUser db token username).err, (BookmarkUser db token username).db)
  UnBookmarkUser := fun db token username =>
    ((UnBookmarkUser db token username).err, (UnBookmarkUser db token username).db)
  RegisterDatabase := fun db data =>
    ((RegisterDatabase aes key sum256hex rnd db data).1.err,
     (RegisterDatabase aes key sum256hex rnd db data).1.db,
     (RegisterDatabase aes key sum256hex rnd db data).2)
  UpdateDatabase := fun db data =>
    ((UpdateDatabase aes key db data).err, (UpdateDatabase aes key db data).db)
  UnregisterDatabase := fun db data =>
    ((UnregisterDatabase db data).err, (UnregisterDatabase db data).db)

end models

namespace oracle

/-- Go `type OraDB interface` (oracle.go), over the state `τ` of an
implementation; `Close` is left out. -/
structure OraDB (τ : Type) where
  CreateUser : τ → String → String → Option String × τ
  DropUser : τ → String → Option String × τ

/-- The implementation `*oracle.DB` of `OraDB`; `range` is the order in which
`CreateUser` visits the map it validates. -/
def asOraDB (range : MapRange) : OraDB DB where
  CreateUser := fun db username password => CreateUser range db username password
  DropUser := fun db username => DropUser db username

/-- What `NewDB` needs from `database/sql` and the network: `sql.Open("oci8",
dsn)`, which yields the handle of the target database named by `dsn`, and
`db.Ping()`. -/
structure Driver where
  sqlOpen : String → Except String DB
  ping : DB → Option String

/-- Go `func NewDB(token string, tokenstore models.Datastore) (*DB, error)`. -/
def NewDB {σ : Type} (driver : Driver) (token : String) (tokenstore : models.Datastore σ)
    (store : σ) : Except String DB :=
  match tokenstore.Get store token with
  | .error err => .error ("could not get database for token (" ++ token ++ "): " ++ err)
  | .ok data =>
    match driver.sqlOpen
        (data.Username ++ ":" ++ data.Password ++ "@" ++ data.DBAddr ++ "/" ++ data.DBName) with
    | .error err =>
      .error ("could not connect to database matching token (" ++ token ++ "): " ++ err)
    | .ok db =>
      match driver.ping db with
      | some err => .error err
      | none => .ok db

end oracle

/-! ## The handlers (pkg/handler)

A request is its method and the outcome of `decodeBody` on its body; decoding
JSON is outside the embedding.  A response is the status written and the JSON
value encoded after it.  `Env` holds the one field `db`, which the handlers
below take as the interface `ds` and its state `store`. -/

namespace handler

/-- The JSON value a handler encodes into the response. -/
inductive Body where
  /-- Nothing was written. -/
  | empty
  /-- The object of `respondMessage`: the key `message` with the text. -/
  | message (text : String)
  /-- The object of `respondErr`: the key `error` holding the key `message` with the text. -/
  | error (text : String)
  /-- The object of `registerDatabase`: the key `token` with the value. -/
  | token (value : String)
  deriving DecidableEq, Repr

/-- The status and the body of a response. -/
structure Response where
  status : Nat
  body : Body
  deriving DecidableEq, Repr

/-- The part of `*http.Request` the handlers read: `req.Method`, and what
`decodeBody(req, data)` returns with the `data` it leaves. -/
structure Request where
  Method : String
  decoded : Except String models.Database

/-- What a handler leaves behind: the response, the state of the datastore, the
state of the target database handle and the lines given to `log`. -/
structure Outcome (σ τ : Type) where
  response : Response
  store : σ
  ora : τ
  logged : List String

/-- Go `http.StatusOK`. -/
def StatusOK : Nat := 200

/-- Go `http.StatusCreated`. -/
def StatusCreated : Nat := 201

/-- Go `http.StatusBadRequest`. -/
def StatusBadRequest : Nat := 400

/-- Go `http.StatusInternalServerError`. -/
def StatusInternalServerError : Nat := 500

/-- Go `func respondMessage(w, r, status, args...)`, `fmt.Sprint(args...)` being `text`. -/
def respondMessage (status : Nat) (text : String) : Response :=
  { status := status, body := .message text }

/-- Go `func respondErr(w, r, status, args...)`, `fmt.Sprint(args...)` being `text`. -/
def respondErr (status : Nat) (text : String) : Response :=
  { status := status, body := .error text }

/-- Go `func notEmpty(args map[string]string) error` (tokenhandler.go), over the
entries in the order `range` visits them. -/
def notEmpty : List (String × String) → Option String
  | [] => none
  | (key, value) :: rest =>
    if value.utf8ByteSize ≤ 0 then some (key ++ " is missing") else notEmpty rest

/-- Go `func (env *Env) createUser(w, req, oradb, data)`. -/
def createUser {σ τ : Type} (ds : models.Datastore σ) (oradb : oracle.OraDB τ)
    (range : oracle.MapRange) (store : σ) (ora : τ) (data : models.Database) : Outcome σ τ :=
  match notEmpty (range [("username", data.Username), ("password", data.Password)]) with
  | some err =>
    { response := respondErr StatusBadRequest err, store := store, ora := ora, logged := [] }
  | none =>
    match oradb.CreateUser ora data.Username data.Password with
    | (some err, ora1) =>
      { response := respondErr StatusInternalServerError err, store := store, ora := ora1,
        logged := [err] }
    | (none, ora1) =>
      match ds.BookmarkUser store data.Token data.Username with
      | (some err, store1) =>
        { response := respondErr StatusInternalServerError "could not bookmark user",
          store := store1, ora := (oradb.DropUser ora1 data.Username).2, logged := [err] }
      | (none, store1) =>
        { response := respondMessage StatusCreated ("user " ++ data.Username ++ " created"),
          store := store1, ora := ora1, logged := [] }

/-- Go `func (env *Env) dropUser(w, req, oradb, data)`. -/
def dropUser {σ τ : Type} (ds : models.Datastore σ) (oradb : oracle.OraDB τ)
    (range : oracle.MapRange) (store : σ) (ora : τ) (data : models.Database) : Outcome σ τ :=
  match notEmpty (range [("username", data.Username)]) with
  | some err =>
    { response := respondErr StatusBadRequest err, store := store, ora := ora, logged := [] }
  | none =>
    match oradb.DropUser ora data.Username with
    | (some err, ora1) =>
      { response := respondErr StatusInternalServerError "Internal Server Error",
        store := store, ora := ora1, logged := [err] }
    | (none, ora1) =>
      match ds.UnBookmarkUser store data.Token data.Username with
      | (some err, store1) =>
        { response := respondErr StatusOK
            (data.Username ++ " deleted, but could not unbookmark it"),
          store := store1, ora := ora1, logged := [err] }
      | (none, store1) =>
        { response := respondMessage StatusOK ("user " ++ data.Username ++ " removed"),
          store := store1, ora := ora1, logged := [] }

/-- Go `func (env *Env) OracleMethodRouter(w, req)`.  The handle is `none` when
`NewDB` was not reached or failed.  A method other than `POST` and `DELETE`
matches no case: nothing is written. -/
def OracleMethodRouter {σ : Type} (ds : models.Datastore σ) (driver : oracle.Driver)
    (range rangeOra : oracle.MapRange) (store : σ) (req : Request) :
    Outcome σ (Option oracle.DB) :=
  match req.decoded with
  | .error err =>
    { response := respondErr StatusBadRequest "malformed request", store := store, ora := none,
      logged := [err] }
  | .ok data =>
    if data.Token.utf8ByteSize ≤ 0 then
      { response := respondErr StatusBadRequest "missing token", store := store, ora := none,
        logged := [] }
    else
      match oracle.NewDB driver data.Token ds store with
      | .error err =>
        { response := respondErr StatusInternalServerError "internal server error",
          store := store, ora := none, logged := [err] }
      | .ok oradb =>
        if req.Method = "POST" then
          let out := createUser ds (oracle.asOraDB rangeOra) range store oradb data
          { response := out.response, store := out.store, ora := some out.ora,
            logged := out.logged }
        else if req.Method = "DELETE" then
          let out := dropUser ds (oracle.asOraDB rangeOra) range store oradb data
          { response := out.response, store := out.store, ora := some out.ora,
            logged := out.logged }
        else
          { response := { status := StatusOK, body := .empty }, store := store,
            ora := some oradb, logged := [] }

/-- Go `func (env *Env) registerDatabase(w, req)`. -/
def registerDatabase {σ : Type} (ds : models.Datastore σ) (range : oracle.MapRange)
    (store : σ) (req : Request) : Outcome σ Unit :=
  match req.decoded with
  | .error _ =>
    { response := respondErr StatusBadRequest "malformed request body", store := store,
      ora := (), logged := [] }
  | .ok data =>
    match notEmpty (range [("dbaddr", data.DBAddr), ("dbname", data.DBName),
        ("username", data.Username), ("password", data.Password)]) with
    | some err =>
      { response := respondErr StatusBadRequest err, store := store, ora := (), logged := [] }
    | none =>
      match ds.RegisterDatabase store data with
      | (some err, store1, _) =>
        { response := respondErr StatusInternalServerError err, store := store1, ora := (),
          logged := [err] }
      | (none, store1, data1) =>
        { response := { status := StatusCreated, body := .token data1.Token }, store := store1,
          ora := (), logged := [] }

/-- Go `func (env *Env) updateDatabase(w, req)`. -/
def updateDatabase {σ : Type} (ds : models.Datastore σ) (range : oracle.MapRange)
    (store : σ) (req : Request) : Outcome σ Unit :=
  match req.decoded with
  | .error err =>
    { response := respondErr StatusBadRequest "malformed request body", store := store,
      ora := (), logged := ["could not decode request body: " ++ err] }
  | .ok data =>
    match notEmpty (range [("token", data.Token), ("dbaddr", data.DBAddr),
        ("dbname", data.DBName), ("username", data.Username),
        ("password", data.Password)]) with
    | some err =>
      { response := respondErr StatusBadRequest err, store := store, ora := (), logged := [] }
    | none =>
      match ds.UpdateDatabase store data with
      | (some err, store1) =>
        { response := respondErr StatusInternalServerError err, store := store1, ora := (),
          logged := [err] }
      | (none, store1) =>
        { response := respondMessage StatusOK "token updated", store := store1, ora := (),
          logged := [] }

/-- Go `func (env *Env) unregisterDatabase(w, req)`. -/
def unregisterDatabase {σ : Type} (ds : models.Datastore σ) (range : oracle.MapRange)
    (store : σ) (req : Request) : Outcome σ Unit :=
  match req.decoded with
  | .error err =>
    { response := respondErr StatusBadRequest "malformed request body", store := store,
      ora := (), logged := [err] }
  | .ok data =>
    match notEmpty (range [("token", data.Token)]) with
    | some err =>
      { response := respondErr StatusBadRequest err, store := store, ora := (), logged := [] }
    | none =>
      match ds.UnregisterDatabase store data with
      | (some err, store1) =>
        { response := respondErr StatusInternalServerError err, store := store1, ora := (),
          logged := [err] }
      | (none, store1) =>
        { response := respondMessage StatusOK "token deleted", store := store1, ora := (),
          logged := [] }

/-- Go `func (env *Env) TokenMethodRouter(w, req)`. -/
def TokenMethodRouter {σ : Type} (ds : models.Datastore σ) (range : oracle.MapRange)
    (store : σ) (req : Request) : Outcome σ Unit :=
  if req.Method = "POST" then registerDatabase ds range store req
  else if req.Method = "PATCH" then updateDatabase ds range store req
  else if req.Method = "DELETE" then unregisterDatabase ds range store req
  else { response := { status := StatusOK, body := .empty }, store := store, ora := (),
         logged := [] }

end handler

/-! ## Concrete inputs -/

namespace models

/-- Stands for the hexadecimal SHA-256 digest where the definitions are
evaluated on concrete inputs: tokens matter only up to equality, and this
function, like the digest, maps equal texts to equal tokens. -/
def testDigest (text : String) : String := "sha256:" ++ text

/-- Two registered credential-sets, each with one bookmarked account; the
secrets are encrypted by `toyAES` under the key `"k"`. -/
def twoRowDB : DB :=
  { tokens := [{ id := 1, token := "t1", typ := "oracle", dbaddr := "db1", dbname := "s1",
                 username := "u1", password := "kp1" },
               { id := 2, token := "t2", typ := "oracle", dbaddr := "db2", dbname := "s2",
                 username := "u2", password := "kp2" }]
    bookmarks := [{ token_id := 1, dbname := "alice" }, { token_id := 2, dbname := "bob" }]
    nextID := 3 }

/-- An update request carrying the token of the first row of `twoRowDB`. -/
def updateT1 : Database :=
  { Token := "t1", Typ := "oracle", DBAddr := "db9", DBName := "s9", Username := "u9",
    Password := "p9" }

/-- The request that registers the credential-set of the scenario of the spec. -/
def registerDB1 : Database :=
  { Token := "", Typ := "", DBAddr := "db1", DBName := "s1", Username := "u", Password := "p" }

/-- The store after `registerDB1` was registered in the empty store. -/
def afterRegister : Result × Database :=
  RegisterDatabase toyAES "k" testDigest 7 emptyDB registerDB1

/-- The store after the account `"alice"` was bookmarked under the token just
registered. -/
def afterBookmark : Result :=
  BookmarkUser afterRegister.1.db afterRegister.2.Token "alice"

/-- The store after that token was unregistered. -/
def afterUnregister : Result :=
  UnregisterDatabase afterBookmark.db afterRegister.2

/-- A bookmark references the internal id of a credential row of the store. -/
def BookmarksReferenceTokens (db : DB) : Prop :=
  ∀ b ∈ db.bookmarks, ∃ r ∈ db.tokens, r.id = b.token_id

end models

namespace oracle

/-- A connection to a target database in which the account `"bob"` exists and
no tablespace `"bob"` does: creating the tablespace succeeds, creating the user
fails, dropping the tablespace succeeds. -/
def userExistsDB : DB :=
  { target := { tablespaces := [], users := ["bob"], roleGSB := true, granted := [] },
    faults := [], log := [] }

/-- A connection on which the first statement runs and the next two fail with
`ORA-03113`. -/
def lostConnectionDB : DB :=
  { freshDB with faults := [none, some "ORA-03113: end-of-file on communication channel",
                            some "ORA-03113: end-of-file on communication channel"] }

/-- A connection on which the three statements of `CreateUser` run and the
statement after them fails with `ORA-03113`. -/
def lostAfterCreateDB : DB :=
  { freshDB with faults := [none, none, none,
                            some "ORA-03113: end-of-file on communication channel"] }

/-- A connection on which the first two statements run and the third fails with
`ORA-03113`. -/
def lostBeforeGrantDB : DB :=
  { freshDB with faults := [none, none,
                            some "ORA-03113: end-of-file on communication channel"] }

/-- A connection to a target database that holds the account `"bob"` and its
tablespace. -/
def bobDB : DB :=
  { target := { tablespaces := ["bob"], users := ["bob"], roleGSB := true, granted := ["bob"] },
    faults := [], log := [] }

/-- A driver that reaches an empty target database for every data source name. -/
def reachingDriver : Driver :=
  { sqlOpen := fun _ => .ok freshDB, ping := fun _ => none }

/-- A driver whose `Ping` finds no listener at the address. -/
def unreachableDriver : Driver :=
  { sqlOpen := fun _ => .ok freshDB, ping := fun _ => some "ORA-12541: TNS:no listener" }

end oracle

namespace handler

/-- The production datastore under `toyAES`, the key `"k"` and `testDigest`. -/
def testStore : models.Datastore models.DB :=
  models.asDatastore models.toyAES "k" models.testDigest 7

/-- A create request for the account `"bob"` under a token; `twoRowDB` knows the
tokens `"t1"` and `"t2"`. -/
def createBob (token : String) : models.Database :=
  { Token := token, Typ := "", DBAddr := "", DBName := "", Username := "bob",
    Password := "pw" }

end handler

/-! ## Facts about the statements of the store -/

namespace models

theorem queryID_eq_error_iff (db : DB) (token : String) :
    (∃ e, queryID db token = .error e) ↔ ∀ r ∈ db.tokens, r.token ≠ token := by
  unfold queryID
  cases h : db.tokens.find? (fun r => r.token == token) with
  | none =>
    simp only [List.find?_eq_none, beq_iff_eq] at h
    simpa using h
  | some r =>
    have hp := List.find?_some h
    have hm := List.mem_of_find?_eq_some h
    simp only [beq_iff_eq] at hp
    constructor
    · rintro ⟨e, he⟩
      cases he
    · intro hall
      exact absurd hp (hall r hm)

theorem getTokenID_unknown (db : DB) (token : String)
    (h : ∀ r ∈ db.tokens, r.token ≠ token) :
    getTokenID db token = .error "could not get tokenID: sql: no rows in result set" := by
  have hf : db.tokens.find? (fun r => r.token == token) = none := by
    simp only [List.find?_eq_none, beq_iff_eq]
    exact h
  simp [getTokenID, queryID, hf, SqlError.msg]

theorem getTokenID_known (db : DB) (token : String)
    (h : ∃ r ∈ db.tokens, r.token = token) :
    ∃ r ∈ db.tokens, r.token = token ∧ getTokenID db token = .ok r.id := by
  cases hf : db.tokens.find? (fun r => r.token == token) with
  | none =>
    simp only [List.find?_eq_none, beq_iff_eq] at hf
    obtain ⟨r, hr, ht⟩ := h
    exact absurd ht (hf r hr)
  | some r =>
    have hp := List.find?_some hf
    simp only [beq_iff_eq] at hp
    exact ⟨r, List.mem_of_find?_eq_some hf, hp, by simp [getTokenID, queryID, hf]⟩

theorem checkDB_none (db : DB) (dbaddr dbname : String)
    (h : ∀ r ∈ db.tokens, ¬(r.dbaddr = dbaddr ∧ r.dbname = dbname)) :
    checkDB db dbaddr dbname = none := by
  have hc : db.tokens.countP (fun r => r.dbaddr == dbaddr && r.dbname == dbname) = 0 := by
    rw [List.countP_eq_zero]
    intro r hr
    simpa using h r hr
  simp [checkDB, queryCount, hc]

theorem checkDB_duplicate (db : DB) (dbaddr dbname : String)
    (h : ∃ r ∈ db.tokens, r.dbaddr = dbaddr ∧ r.dbname = dbname) :
    checkDB db dbaddr dbname = some "database token already exists" := by
  have hc : 0 < db.tokens.countP (fun r => r.dbaddr == dbaddr && r.dbname == dbname) := by
    rw [List.countP_pos_iff]
    obtain ⟨r, hr, h1, h2⟩ := h
    exact ⟨r, hr, by simp [h1, h2]⟩
  simp [checkDB, queryCount, hc]

/-- Function `UpdateDatabase` reports no error and sets the token, address, schema, login
and secret of every row to those of the request. -/
theorem UpdateDatabase_sets_every_row (aes : AES) (key : String) (db : DB) (data : Database) :
    (UpdateDatabase aes key db data).err = none ∧
    ∀ r ∈ (UpdateDatabase aes key db data).db.tokens,
      r.token = data.Token ∧ r.dbaddr = data.DBAddr ∧ r.dbname = data.DBName ∧
      r.username = data.Username ∧ r.password = aes.encrypt data.Password key := by
  refine ⟨rfl, ?_⟩
  intro r hr
  simp only [UpdateDatabase, execUpdateTokens, List.mem_map] at hr
  obtain ⟨r0, _, rfl⟩ := hr
  exact ⟨rfl, rfl, rfl, rfl, rfl⟩

/-- Every error of `Get` is the decode-password error; the error
"could not get token information" is returned for no store and no token. -/
theorem Get_error_is_decode (aes : AES) (key : String) (db : DB) (token e : String)
    (h : Get aes key db token = .error e) :
    ∃ cause : SqlError,
      e = "could not decode password, check your database secret: " ++ cause.msg := by
  unfold Get queryPassword queryInfo at h
  cases hf : db.tokens.find? (fun r => r.token == token) with
  | none =>
    simp only [hf] at h
    exact ⟨.noRows, by cases h; rfl⟩
  | some r =>
    simp only [hf] at h
    cases hd : aes.decrypt r.password key with
    | none =>
      simp only [hd] at h
      exact ⟨.scanNull, by cases h; rfl⟩
    | some p =>
      simp only [hd] at h
      cases h

/-- Decrypting with `toyAES` under the key used to encrypt returns the plain text. -/
theorem toyAES_decrypt_encrypt (str k : String) :
    toyAES.decrypt (toyAES.encrypt str k) k = some str := by
  simp [toyAES]

/-! ## The claims about the credential store -/

/-- C1 (the code departs from the claim): on a store of two credential rows,
`UpdateDatabase` called with the token of the first row reports success and
overwrites the token, address, schema, login and secret of both rows, so the
second row loses its token `"t2"` and its own fields. -/
theorem UpdateDatabase_overwrites_every_row :
    (UpdateDatabase toyAES "k" twoRowDB updateT1).err = none ∧
    (UpdateDatabase toyAES "k" twoRowDB updateT1).db.tokens =
      [{ id := 1, token := "t1", typ := "oracle", dbaddr := "db9", dbname := "s9",
         username := "u9", password := "kp9" },
       { id := 2, token := "t1", typ := "oracle", dbaddr := "db9", dbname := "s9",
         username := "u9", password := "kp9" }] := by
  decide

/-- C2 (counterexample): `("ab", "c")` and `("a", "bc")` are different
(address, schema) pairs with the same `fmt.Sprint` text `"abc"`; when the
generator draws the same number for both registrations the two tokens are the
digest of the same text.  The second registration succeeds, no row existed for
its pair, and `Get` on the token it returned yields the address, schema, login
and secret of the first registration. -/
theorem RegisterDatabase_Get_token_collision :
    (RegisterDatabase toyAES "k" testDigest 7
        (RegisterDatabase toyAES "k" testDigest 7 emptyDB
          { Token := "", Typ := "", DBAddr := "ab", DBName := "c", Username := "u1",
            Password := "p1" }).1.db
        { Token := "", Typ := "", DBAddr := "a", DBName := "bc", Username := "u2",
          Password := "p2" }).1.err = none ∧
    (∀ r ∈ (RegisterDatabase toyAES "k" testDigest 7 emptyDB
          { Token := "", Typ := "", DBAddr := "ab", DBName := "c", Username := "u1",
            Password := "p1" }).1.db.tokens, ¬(r.dbaddr = "a" ∧ r.dbname = "bc")) ∧
    Get toyAES "k"
      (RegisterDatabase toyAES "k" testDigest 7
        (RegisterDatabase toyAES "k" testDigest 7 emptyDB
          { Token := "", Typ := "", DBAddr := "ab", DBName := "c", Username := "u1",
            Password := "p1" }).1.db
        { Token := "", Typ := "", DBAddr := "a", DBName := "bc", Username := "u2",
          Password := "p2" }).1.db
      (RegisterDatabase toyAES "k" testDigest 7
        (RegisterDatabase toyAES "k" testDigest 7 emptyDB
          { Token := "", Typ := "", DBAddr := "ab", DBName := "c", Username := "u1",
            Password := "p1" }).1.db
        { Token := "", Typ := "", DBAddr := "a", DBName := "bc", Username := "u2",
          Password := "p2" }).2.Token
      = .ok { Token := "", Typ := "oracle", DBAddr := "ab", DBName := "c", Username := "u1",
              Password := "p1" } := by
  decide

/-- C2 (amended): when no row exists for (address, schema), the token
`generateToken` produces is not the token of a stored row, and decrypting under
a key undoes encrypting under it, `RegisterDatabase` succeeds and `Get` on the
returned token, under the same key, succeeds with the address, schema, login
and secret that were registered. -/
theorem RegisterDatabase_Get_roundtrip (aes : AES) (key : String)
    (sum256hex : String → String) (rnd : Nat) (db : DB) (data : Database)
    (hdec : ∀ str k, aes.decrypt (aes.encrypt str k) k = some str)
    (hnew : ∀ r ∈ db.tokens, ¬(r.dbaddr = data.DBAddr ∧ r.dbname = data.DBName))
    (hfresh : ∀ t, generateToken sum256hex rnd [data.DBAddr, data.DBName] = .ok t →
      ∀ r ∈ db.tokens, r.token ≠ t) :
    (RegisterDatabase aes key sum256hex rnd db data).1.err = none ∧
    Get aes key (RegisterDatabase aes key sum256hex rnd db data).1.db
        (RegisterDatabase aes key sum256hex rnd db data).2.Token
      = .ok { Token := "", Typ := "oracle", DBAddr := data.DBAddr, DBName := data.DBName,
              Username := data.Username, Password := data.Password } := by
  have hc := checkDB_none db data.DBAddr data.DBName hnew
  have hf : db.tokens.find? (fun r => r.token ==
      sum256hex (String.join [data.DBAddr, data.DBName] ++ toString rnd)) = none := by
    simp only [List.find?_eq_none, beq_iff_eq]
    exact hfresh _ rfl
  simp only [RegisterDatabase, hc, generateToken, execInsertToken, Get, queryPassword, queryInfo,
    List.find?_append, hf, Option.none_or, List.find?_cons, beq_self_eq_true,
    hdec, true_and]

/-- Witness of C2 (amended): registering ("db3", "s3") in `twoRowDB`, where the pair and the generated token are new. -/
theorem RegisterDatabase_Get_roundtrip_witness :
    (∀ r ∈ twoRowDB.tokens, ¬(r.dbaddr = "db3" ∧ r.dbname = "s3")) ∧
    (RegisterDatabase toyAES "k" testDigest 7 twoRowDB
        { Token := "", Typ := "", DBAddr := "db3", DBName := "s3", Username := "u3",
          Password := "p3" }).1.err = none ∧
    Get toyAES "k"
        (RegisterDatabase toyAES "k" testDigest 7 twoRowDB
          { Token := "", Typ := "", DBAddr := "db3", DBName := "s3", Username := "u3",
            Password := "p3" }).1.db
        (RegisterDatabase toyAES "k" testDigest 7 twoRowDB
          { Token := "", Typ := "", DBAddr := "db3", DBName := "s3", Username := "u3",
            Password := "p3" }).2.Token
      = .ok { Token := "", Typ := "oracle", DBAddr := "db3", DBName := "s3", Username := "u3",
              Password := "p3" } :=
  ⟨by decide,
   RegisterDatabase_Get_roundtrip toyAES "k" testDigest 7 twoRowDB
    { Token := "", Typ := "", DBAddr := "db3", DBName := "s3", Username := "u3",
      Password := "p3" }
    toyAES_decrypt_encrypt (by decide)
    (by
      intro t ht
      cases ht
      decide)⟩

/-- C3: when a row of the store already has the (address, schema) pair of the
request, `RegisterDatabase` fails with "database token already exists", issues
only the counting query (no insert) and leaves the store, hence every existing
row, as it was. -/
theorem RegisterDatabase_duplicate (aes : AES) (key : String) (sum256hex : String → String)
    (rnd : Nat) (db : DB) (data : Database)
    (hdup : ∃ r ∈ db.tokens, r.dbaddr = data.DBAddr ∧ r.dbname = data.DBName) :
    (RegisterDatabase aes key sum256hex rnd db data).1.err
      = some "database token already exists" ∧
    (RegisterDatabase aes key sum256hex rnd db data).1.db = db ∧
    (RegisterDatabase aes key sum256hex rnd db data).1.trace
      = [.countDB data.DBAddr data.DBName] := by
  have hc := checkDB_duplicate db data.DBAddr data.DBName hdup
  simp only [RegisterDatabase, hc, and_self]

/-- Witness of C3: registering ("db2", "s2") in `twoRowDB`, whose second row has that pair. -/
theorem RegisterDatabase_duplicate_witness :
    (∃ r ∈ twoRowDB.tokens, r.dbaddr = "db2" ∧ r.dbname = "s2") ∧
    (RegisterDatabase toyAES "k" testDigest 7 twoRowDB
        { Token := "", Typ := "", DBAddr := "db2", DBName := "s2", Username := "u3",
          Password := "p3" }).1.err = some "database token already exists" ∧
    (RegisterDatabase toyAES "k" testDigest 7 twoRowDB
        { Token := "", Typ := "", DBAddr := "db2", DBName := "s2", Username := "u3",
          Password := "p3" }).1.db = twoRowDB ∧
    (RegisterDatabase toyAES "k" testDigest 7 twoRowDB
        { Token := "", Typ := "", DBAddr := "db2", DBName := "s2", Username := "u3",
          Password := "p3" }).1.trace = [.countDB "db2" "s2"] :=
  ⟨by decide,
   RegisterDatabase_duplicate toyAES "k" testDigest 7 twoRowDB
    { Token := "", Typ := "", DBAddr := "db2", DBName := "s2", Username := "u3",
      Password := "p3" } (by decide)⟩

/-- C4 (the code departs from the claim): the token "t3" identifies no row of
`twoRowDB`.  `UpdateDatabase` with that token issues the one `UPDATE` statement
without looking the token up, returns no error, and rewrites both credential
rows to the token and fields of the request, so the store is not left as it
was; `UnregisterDatabase` with the same token reports the not-found error and
leaves the store as it was. -/
theorem UpdateDatabase_unknown_token_rewrites_rows :
    (∀ r ∈ twoRowDB.tokens, r.token ≠ "t3") ∧
    (UpdateDatabase toyAES "k" twoRowDB { updateT1 with Token := "t3" }).err = none ∧
    (UpdateDatabase toyAES "k" twoRowDB { updateT1 with Token := "t3" }).trace
      = [.updateTokens "t3" "oracle" "db9" "s9" "u9" "p9" "k"] ∧
    (UpdateDatabase toyAES "k" twoRowDB { updateT1 with Token := "t3" }).db.tokens
      = [{ id := 1, token := "t3", typ := "oracle", dbaddr := "db9", dbname := "s9",
           username := "u9", password := "kp9" },
         { id := 2, token := "t3", typ := "oracle", dbaddr := "db9", dbname := "s9",
           username := "u9", password := "kp9" }] ∧
    (UpdateDatabase toyAES "k" twoRowDB { updateT1 with Token := "t3" }).db ≠ twoRowDB ∧
    (UnregisterDatabase twoRowDB { updateT1 with Token := "t3" }).err
      = some "could not get tokenID: sql: no rows in result set" ∧
    (UnregisterDatabase twoRowDB { updateT1 with Token := "t3" }).db = twoRowDB := by
  decide

/-- C5 (the code departs from the claim): for a token that is in no row `Get`
returns the error "could not decode password, check your database secret", the
same message it returns for a stored row whose secret does not decrypt under the
current key; only the driver text appended to it differs. -/
theorem Get_unknown_token_reports_decode_error :
    (∀ r ∈ twoRowDB.tokens, r.token ≠ "nosuchtoken") ∧
    Get toyAES "k" twoRowDB "nosuchtoken"
      = .error ("could not decode password, check your database secret: " ++
          "sql: no rows in result set") ∧
    Get toyAES "otherkey" twoRowDB "t1"
      = .error ("could not decode password, check your database secret: " ++
          "sql: Scan error on column index 0: converting NULL to string is unsupported") := by
  decide

/-- C6: for a token that identifies no row `UnregisterDatabase` fails with the
not-found error of `getTokenID`, issues the lookup only (no delete) and leaves
the store as it was; for a token that identifies a row it succeeds and the
credential rows afterwards are those whose token differs, in their order, the
bookmarks being untouched. -/
theorem UnregisterDatabase_spec (db : DB) (data : Database) :
    ((∀ r ∈ db.tokens, r.token ≠ data.Token) →
      (UnregisterDatabase db data).err
        = some "could not get tokenID: sql: no rows in result set" ∧
      (UnregisterDatabase db data).trace = [.selectID data.Token] ∧
      (UnregisterDatabase db data).db = db) ∧
    ((∃ r ∈ db.tokens, r.token = data.Token) →
      (UnregisterDatabase db data).err = none ∧
      (UnregisterDatabase db data).db.tokens
        = db.tokens.filter (fun r => decide (r.token ≠ data.Token)) ∧
      (UnregisterDatabase db data).db.bookmarks = db.bookmarks) := by
  constructor
  · intro h
    simp [UnregisterDatabase, getTokenID_unknown db data.Token h]
  · intro h
    obtain ⟨r, _, _, hid⟩ := getTokenID_known db data.Token h
    simp only [UnregisterDatabase, hid, execDeleteToken, true_and, and_true]
    apply List.filter_congr
    intro x _
    by_cases hx : x.token = data.Token <;> simp [hx]

/-- Witness of C6: unregistering the unknown token "t3" and the known token "t1" in `twoRowDB`. -/
theorem UnregisterDatabase_spec_witness :
    ((∀ r ∈ twoRowDB.tokens, r.token ≠ "t3") ∧
      (UnregisterDatabase twoRowDB { updateT1 with Token := "t3" }).err
        = some "could not get tokenID: sql: no rows in result set" ∧
      (UnregisterDatabase twoRowDB { updateT1 with Token := "t3" }).trace = [.selectID "t3"] ∧
      (UnregisterDatabase twoRowDB { updateT1 with Token := "t3" }).db = twoRowDB) ∧
    ((∃ r ∈ twoRowDB.tokens, r.token = "t1") ∧
      (UnregisterDatabase twoRowDB updateT1).err = none ∧
      (UnregisterDatabase twoRowDB updateT1).db.tokens
        = twoRowDB.tokens.filter (fun r => decide (r.token ≠ "t1")) ∧
      (UnregisterDatabase twoRowDB updateT1).db.bookmarks = twoRowDB.bookmarks) :=
  ⟨⟨by decide,
    (UnregisterDatabase_spec twoRowDB { updateT1 with Token := "t3" }).1 (by decide)⟩,
   ⟨by decide, (UnregisterDatabase_spec twoRowDB updateT1).2 (by decide)⟩⟩

/-- C7 (the code departs from the claim): register a credential-set in the empty
store, bookmark `"alice"` under its token, unregister the token.  All three
calls succeed; afterwards the store holds no credential row and still holds the
bookmark of `"alice"`, which references the internal id 1 of the removed row. -/
theorem UnregisterDatabase_keeps_bookmarks :
    afterRegister.1.err = none ∧ afterBookmark.err = none ∧ afterUnregister.err = none ∧
    afterBookmark.db.tokens.map (fun r => r.id) = [1] ∧
    afterUnregister.trace = [.selectID afterRegister.2.Token, .deleteToken afterRegister.2.Token] ∧
    afterUnregister.db.tokens = [] ∧
    afterUnregister.db.bookmarks = [{ token_id := 1, dbname := "alice" }] ∧
    ¬ BookmarksReferenceTokens afterUnregister.db := by
  refine ⟨by decide, by decide, by decide, by decide, by decide, by decide, by decide, ?_⟩
  unfold BookmarksReferenceTokens
  decide

/-- C8: `UnBookmarkUser` fails exactly when the token identifies no credential
row.  With a known token it succeeds, whether or not a bookmark matches, and for
the row whose id the lookup yields the bookmarks afterwards are those that
differ from (that id, account name), in their order, the credential rows being
untouched; with an unknown token the store is left as it was. -/
theorem UnBookmarkUser_spec (db : DB) (token username : String) :
    ((UnBookmarkUser db token username).err ≠ none ↔ ∀ r ∈ db.tokens, r.token ≠ token) ∧
    ((∃ r ∈ db.tokens, r.token = token) →
      ∃ r ∈ db.tokens, r.token = token ∧ getTokenID db token = .ok r.id ∧
        (UnBookmarkUser db token username).err = none ∧
        (UnBookmarkUser db token username).db.bookmarks
          = db.bookmarks.filter
              (fun b => decide (¬(b.token_id = r.id ∧ b.dbname = username))) ∧
        (UnBookmarkUser db token username).db.tokens = db.tokens ∧
        (UnBookmarkUser db token username).db.nextID = db.nextID) ∧
    ((∀ r ∈ db.tokens, r.token ≠ token) → (UnBookmarkUser db token username).db = db) := by
  by_cases h : ∃ r ∈ db.tokens, r.token = token
  · obtain ⟨r, hr, ht, hid⟩ := getTokenID_known db token h
    have hn : ¬ ∀ r ∈ db.tokens, r.token ≠ token := by
      intro hall
      exact hall r hr ht
    refine ⟨?_, ?_, fun hall => absurd hall hn⟩
    · simp [UnBookmarkUser, hid, execDeleteBookmark, hn]
    · intro _
      refine ⟨r, hr, ht, hid, ?_, ?_, ?_, ?_⟩
      · simp [UnBookmarkUser, hid, execDeleteBookmark]
      · simp only [UnBookmarkUser, hid, execDeleteBookmark]
        apply List.filter_congr
        intro b _
        by_cases h1 : b.token_id = r.id <;> by_cases h2 : b.dbname = username <;> simp [h1, h2]
      · simp [UnBookmarkUser, hid, execDeleteBookmark]
      · simp [UnBookmarkUser, hid, execDeleteBookmark]
  · have hall : ∀ r ∈ db.tokens, r.token ≠ token := by
      intro r hr ht
      exact h ⟨r, hr, ht⟩
    have hid := getTokenID_unknown db token hall
    refine ⟨?_, fun hex => absurd hex h, fun _ => ?_⟩
    · simp only [UnBookmarkUser, hid]
      simpa using hall
    · simp [UnBookmarkUser, hid]

/-- Witness of C8: removing the bookmark of "alice" in `twoRowDB` under the known token "t1" and under the unknown token "t3". -/
theorem UnBookmarkUser_spec_witness :
    ((∃ r ∈ twoRowDB.tokens, r.token = "t1") ∧
      ∃ r ∈ twoRowDB.tokens, r.token = "t1" ∧ getTokenID twoRowDB "t1" = .ok r.id ∧
        (UnBookmarkUser twoRowDB "t1" "alice").err = none ∧
        (UnBookmarkUser twoRowDB "t1" "alice").db.bookmarks
          = twoRowDB.bookmarks.filter
              (fun b => decide (¬(b.token_id = r.id ∧ b.dbname = "alice"))) ∧
        (UnBookmarkUser twoRowDB "t1" "alice").db.tokens = twoRowDB.tokens ∧
        (UnBookmarkUser twoRowDB "t1" "alice").db.nextID = twoRowDB.nextID) ∧
    ((∀ r ∈ twoRowDB.tokens, r.token ≠ "t3") ∧
      (UnBookmarkUser twoRowDB "t3" "alice").db = twoRowDB) :=
  ⟨⟨by decide, (UnBookmarkUser_spec twoRowDB "t1" "alice").2.1 (by decide)⟩,
   ⟨by decide, (UnBookmarkUser_spec twoRowDB "t3" "alice").2.2 (by decide)⟩⟩

end models

namespace oracle

/-! ## Facts about the provisioner -/

/-- The test `len(value) <= 0` holds of the empty string only. -/
theorem utf8ByteSize_le_zero_iff (value : String) : value.utf8ByteSize ≤ 0 ↔ value = "" := by
  obtain ⟨cs⟩ := value
  cases cs with
  | nil => simp [String.utf8ByteSize, String.utf8ByteSize.go]
  | cons c cs =>
    have hpos := c.utf8Size_pos
    have hne : String.mk (c :: cs) ≠ "" := by
      intro h
      have hd := congrArg String.data h
      simp at hd
    simp only [String.utf8ByteSize, String.utf8ByteSize.go, hne, iff_false]
    omega

theorem notEmpty_eq_none_iff (args : List (String × String)) :
    notEmpty args = none ↔ ∀ kv ∈ args, kv.2 ≠ "" := by
  induction args with
  | nil => simp [notEmpty]
  | cons kv rest ih =>
    obtain ⟨key, value⟩ := kv
    by_cases hv : value = ""
    · simp [notEmpty, hv, String.utf8ByteSize, String.utf8ByteSize.go]
    · have hsz : ¬ value.utf8ByteSize ≤ 0 := fun h => hv ((utf8ByteSize_le_zero_iff value).1 h)
      simp [notEmpty, hsz, ih, hv]

theorem notEmpty_eq_some (args : List (String × String)) (err : String)
    (h : notEmpty args = some err) :
    ∃ kv ∈ args, kv.2 = "" ∧ err = kv.1 ++ " is missing" := by
  induction args with
  | nil => simp [notEmpty] at h
  | cons kv rest ih =>
    obtain ⟨key, value⟩ := kv
    by_cases hsz : value.utf8ByteSize ≤ 0
    · simp only [notEmpty, hsz, if_true, Option.some.injEq] at h
      exact ⟨(key, value), List.mem_cons_self _ _, (utf8ByteSize_le_zero_iff value).1 hsz, h.symm⟩
    · simp only [notEmpty, hsz, if_false] at h
      obtain ⟨kv, hkv, h1, h2⟩ := ih h
      exact ⟨kv, List.mem_cons_of_mem _ hkv, h1, h2⟩

theorem Exec_log (db : DB) (stmt : Stmt) : (Exec db stmt).2.log = db.log ++ [stmt] := by
  unfold Exec
  cases db.faults.headD none with
  | some e => rfl
  | none =>
    cases db.target.run stmt with
    | error e => rfl
    | ok t => rfl

theorem Exec_dropTablespace_ok (db db1 : DB) (tablespace : String)
    (h : Exec db (.dropTablespace tablespace) = (none, db1)) :
    tablespace ∉ db1.target.tablespaces := by
  unfold Exec at h
  cases hf : db.faults.headD none with
  | some e =>
    rw [hf] at h
    simp at h
  | none =>
    simp only [hf, Target.run] at h
    by_cases hm : tablespace ∈ db.target.tablespaces
    · simp only [hm, if_true, Prod.mk.injEq, true_and] at h
      subst h
      simp [List.mem_filter]
    · simp [hm] at h

/-- Function `CreateUser` validates first: with an empty name or an empty secret it
returns "<field> is missing" for a field that is empty and issues no statement;
the handle and the target database are as they were. -/
theorem CreateUser_validates (range : MapRange) (hrange : ∀ l, (range l).Perm l) (db : DB)
    (username password : String) (hempty : username = "" ∨ password = "") :
    (CreateUser range db username password).2 = db ∧
    ((username = "" ∧ (CreateUser range db username password).1 = some "username is missing") ∨
     (password = "" ∧ (CreateUser range db username password).1 = some "password is missing")) := by
  have hp := hrange [("username", username), ("password", password)]
  cases hn : notEmpty (range [("username", username), ("password", password)]) with
  | none =>
    rw [notEmpty_eq_none_iff] at hn
    have h1 := hn ("username", username) (hp.mem_iff.2 (by simp))
    have h2 := hn ("password", password) (hp.mem_iff.2 (by simp))
    rcases hempty with h | h
    · exact absurd h h1
    · exact absurd h h2
  | some err =>
    obtain ⟨kv, hkv, hval, herr⟩ := notEmpty_eq_some _ _ hn
    have hmem := hp.mem_iff.1 hkv
    simp only [List.mem_cons, List.mem_singleton, List.not_mem_nil, or_false] at hmem
    refine ⟨by simp [CreateUser, hn], ?_⟩
    rcases hmem with h | h
    · subst h
      exact Or.inl ⟨hval, by simp [CreateUser, hn, herr]⟩
    · subst h
      exact Or.inr ⟨hval, by simp [CreateUser, hn, herr]⟩

theorem CreateUser_valid (range : MapRange) (hrange : ∀ l, (range l).Perm l)
    (username password : String) (hu : username ≠ "") (hp : password ≠ "") :
    notEmpty (range [("username", username), ("password", password)]) = none := by
  rw [notEmpty_eq_none_iff]
  intro kv hkv
  have hmem := (hrange _).mem_iff.1 hkv
  simp only [List.mem_cons, List.mem_singleton, List.not_mem_nil, or_false] at hmem
  rcases hmem with h | h <;> subst h <;> assumption

/-- The error of a failed compensation is not the error of the failed creation. -/
theorem dropError_ne_createError (username e2 e3 : String) :
    "could not drop tablespace (" ++ username ++ ") after user creation failed: " ++ e3
      ≠ "could not create user (" ++ username ++ "): " ++ e2 := by
  intro h
  have hd := congrArg (fun s => s.data.take 11) h
  simp only [String.data_append, List.append_assoc] at hd
  simp [List.take_append_eq_append_take] at hd

/-- Function `DropUser` issues `DROP user` first, whatever the name. -/
theorem DropUser_log (db : DB) (username : String) :
    ∃ rest, (DropUser db username).2.log = db.log ++ Stmt.dropUser username :: rest := by
  unfold DropUser
  have hl := Exec_log db (.dropUser username)
  cases h1 : Exec db (.dropUser username) with
  | mk e db1 =>
    rw [h1] at hl
    cases e with
    | some err => exact ⟨[], by simpa using hl⟩
    | none =>
      have hl2 := Exec_log db1 (.dropTablespace username)
      cases h2 : Exec db1 (.dropTablespace username) with
      | mk e2 db2 =>
        rw [h2] at hl2
        simp only at hl hl2
        cases e2 with
        | some err => exact ⟨[.dropTablespace username], by simp [h2, hl2, hl]⟩
        | none => exact ⟨[.dropTablespace username], by simp [h2, hl2, hl]⟩

/-! ## The claims about the account provisioner -/

/-- C9 (the code departs from the claim): `DropUser` does not validate its
argument.  Called with the empty name on any connection it issues the statement
`DROP user ` against the target database; on a target without such an account
the error it returns is that of the statement, not "username is missing". -/
theorem DropUser_empty_name_issues_statement :
    (∀ db : DB, ∃ rest, (DropUser db "").2.log = db.log ++ Stmt.dropUser "" :: rest) ∧
    Stmt.sql (.dropUser "") = "DROP user " ∧
    DropUser freshDB ""
      = (some "could not drop user (): ORA-01918: user does not exist",
         { freshDB with log := [.dropUser ""] }) :=
  ⟨fun db => DropUser_log db "", by decide, by decide⟩

/-- C10: for a non-empty name and secret, when the tablespace creation succeeds
and the login-creation statement fails, `CreateUser` issues exactly the three
statements create tablespace, create user, drop tablespace of that name, and no
grant.  If the drop succeeds, no tablespace of that name is in the target
database afterwards and the error is the user-creation error; if the drop
fails, the error is the drop-tablespace error, which differs from the
user-creation error. -/
theorem CreateUser_compensates (range : MapRange) (hrange : ∀ l, (range l).Perm l) (db : DB)
    (username password : String) (hu : username ≠ "") (hp : password ≠ "")
    (db1 : DB) (h1 : Exec db (.createTablespace username) = (none, db1))
    (e2 : String) (db2 : DB)
    (h2 : Exec db1 (.createUser username username password) = (some e2, db2)) :
    (CreateUser range db username password).2.log
      = db.log ++ [.createTablespace username, .createUser username username password,
                   .dropTablespace username] ∧
    (∀ db3, Exec db2 (.dropTablespace username) = (none, db3) →
      username ∉ (CreateUser range db username password).2.target.tablespaces ∧
      (CreateUser range db username password).1
        = some ("could not create user (" ++ username ++ "): " ++ e2)) ∧
    (∀ e3 db3, Exec db2 (.dropTablespace username) = (some e3, db3) →
      (CreateUser range db username password).1
        = some ("could not drop tablespace (" ++ username ++
            ") after user creation failed: " ++ e3) ∧
      (CreateUser range db username password).1
        ≠ some ("could not create user (" ++ username ++ "): " ++ e2)) := by
  have hv := CreateUser_valid range hrange username password hu hp
  have hl1 := Exec_log db (.createTablespace username)
  have hl2 := Exec_log db1 (.createUser username username password)
  have hl3 := Exec_log db2 (.dropTablespace username)
  rw [h1] at hl1
  rw [h2] at hl2
  simp only at hl1 hl2
  cases h3 : Exec db2 (.dropTablespace username) with
  | mk e db3 =>
    rw [h3] at hl3
    simp only at hl3
    cases e with
    | none =>
      refine ⟨?_, ?_, ?_⟩
      · simp [CreateUser, hv, h1, h2, h3, hl3, hl2, hl1]
      · intro db3' h
        cases h
        exact ⟨by simpa [CreateUser, hv, h1, h2, h3] using Exec_dropTablespace_ok db2 db3 username h3,
          by simp [CreateUser, hv, h1, h2, h3]⟩
      · intro e3 db3' h
        cases h
    | some e3 =>
      refine ⟨?_, ?_, ?_⟩
      · simp [CreateUser, hv, h1, h2, h3, hl3, hl2, hl1]
      · intro db3' h
        cases h
      · intro e3' db3' h
        cases h
        have herr : (CreateUser range db username password).1
            = some ("could not drop tablespace (" ++ username ++
                ") after user creation failed: " ++ e3) := by
          simp [CreateUser, hv, h1, h2, h3]
        refine ⟨herr, ?_⟩
        rw [herr]
        intro hc
        exact dropError_ne_createError username e2 e3 (Option.some.inj hc)

/-- Witness of C10: creating "bob" where the account already exists (the drop succeeds) and on a connection lost after the first statement (the drop fails). -/
theorem CreateUser_compensates_witness :
    ((CreateUser id userExistsDB "bob" "pw").2.log
        = [.createTablespace "bob", .createUser "bob" "bob" "pw", .dropTablespace "bob"] ∧
      "bob" ∉ (CreateUser id userExistsDB "bob" "pw").2.target.tablespaces ∧
      (CreateUser id userExistsDB "bob" "pw").1
        = some ("could not create user (bob): " ++
            "ORA-01920: user name conflicts with another user or role name")) ∧
    ((CreateUser id lostConnectionDB "bob" "pw").2.log
        = [.createTablespace "bob", .createUser "bob" "bob" "pw", .dropTablespace "bob"] ∧
      (CreateUser id lostConnectionDB "bob" "pw").1
        = some ("could not drop tablespace (bob) after user creation failed: " ++
            "ORA-03113: end-of-file on communication channel")) :=
  have hA := CreateUser_compensates id (fun _ => List.Perm.refl _) userExistsDB "bob" "pw"
    (by decide) (by decide) (Exec userExistsDB (.createTablespace "bob")).2 rfl
    "ORA-01920: user name conflicts with another user or role name"
    (Exec (Exec userExistsDB (.createTablespace "bob")).2 (.createUser "bob" "bob" "pw")).2
    (by decide)
  have hB := CreateUser_compensates id (fun _ => List.Perm.refl _) lostConnectionDB "bob" "pw"
    (by decide) (by decide) (Exec lostConnectionDB (.createTablespace "bob")).2 rfl
    "ORA-03113: end-of-file on communication channel"
    (Exec (Exec lostConnectionDB (.createTablespace "bob")).2 (.createUser "bob" "bob" "pw")).2
    (by decide)
  ⟨⟨hA.1, hA.2.1 _ rfl⟩, ⟨hB.1, (hB.2.2 _ _ rfl).1⟩⟩

/-! ## More facts about the statements of the provisioner -/

/-- A statement that fails leaves the catalogue of the target database as it was. -/
theorem Exec_error_target (db db1 : DB) (stmt : Stmt) (e : String)
    (h : Exec db stmt = (some e, db1)) : db1.target = db.target := by
  unfold Exec at h
  cases hf : db.faults.headD none with
  | some e1 =>
    rw [hf] at h
    simp only [Prod.mk.injEq] at h
    rw [← h.2]
  | none =>
    rw [hf] at h
    cases hr : db.target.run stmt with
    | error e1 =>
      rw [hr] at h
      simp only [Prod.mk.injEq] at h
      rw [← h.2]
    | ok t =>
      rw [hr] at h
      simp at h

/-- A statement that succeeds ran on the catalogue. -/
theorem Exec_ok_run (db db1 : DB) (stmt : Stmt) (h : Exec db stmt = (none, db1)) :
    db.target.run stmt = .ok db1.target := by
  unfold Exec at h
  cases hf : db.faults.headD none with
  | some e1 =>
    rw [hf] at h
    simp at h
  | none =>
    rw [hf] at h
    cases hr : db.target.run stmt with
    | error e1 =>
      rw [hr] at h
      simp at h
    | ok t =>
      rw [hr] at h
      simp only [Prod.mk.injEq, true_and] at h
      rw [← h]

theorem Exec_createTablespace_ok (db db1 : DB) (tablespace : String)
    (h : Exec db (.createTablespace tablespace) = (none, db1)) :
    tablespace ∈ db1.target.tablespaces ∧ db1.target.users = db.target.users := by
  have hr := Exec_ok_run db db1 _ h
  simp only [Target.run] at hr
  by_cases hm : tablespace ∈ db.target.tablespaces
  · simp [hm] at hr
  · simp only [hm, if_false, Except.ok.injEq] at hr
    rw [← hr]
    simp

theorem Exec_createUser_ok (db db1 : DB) (username tablespace password : String)
    (h : Exec db (.createUser username tablespace password) = (none, db1)) :
    username ∈ db1.target.users ∧ db1.target.tablespaces = db.target.tablespaces := by
  have hr := Exec_ok_run db db1 _ h
  simp only [Target.run] at hr
  by_cases hm : username ∈ db.target.users
  · simp [hm] at hr
  · by_cases ht : tablespace ∈ db.target.tablespaces
    · simp only [hm, ht, if_false, not_true_eq_false, Except.ok.injEq] at hr
      rw [← hr]
      simp
    · simp [hm, ht] at hr

theorem Exec_dropUser_ok (db db1 : DB) (username : String)
    (h : Exec db (.dropUser username) = (none, db1)) : username ∉ db1.target.users := by
  have hr := Exec_ok_run db db1 _ h
  simp only [Target.run] at hr
  by_cases hm : username ∈ db.target.users
  · simp only [hm, if_true, Except.ok.injEq] at hr
    rw [← hr]
    simp [List.mem_filter]
  · simp [hm] at hr

/-- Dropping a tablespace, whether it succeeds or fails, leaves the accounts as they were. -/
theorem Exec_dropTablespace_users (db : DB) (tablespace : String) :
    (Exec db (.dropTablespace tablespace)).2.target.users = db.target.users := by
  cases h : Exec db (.dropTablespace tablespace) with
  | mk e db1 =>
    cases e with
    | some err => simp [Exec_error_target db db1 _ err h]
    | none =>
      have hr := Exec_ok_run db db1 _ h
      simp only [Target.run] at hr
      by_cases hm : tablespace ∈ db.target.tablespaces
      · simp only [hm, if_true, Except.ok.injEq] at hr
        rw [← hr]
      · simp [hm] at hr

/-- When the `DROP user` of `DropUser` succeeds, the account is absent afterwards. -/
theorem DropUser_absent (db db1 : DB) (username : String)
    (h : Exec db (.dropUser username) = (none, db1)) :
    username ∉ (DropUser db username).2.target.users := by
  have h1 := Exec_dropUser_ok db db1 username h
  have h2 := Exec_dropTablespace_users db1 username
  unfold DropUser
  rw [h]
  cases h3 : Exec db1 (.dropTablespace username) with
  | mk e db2 =>
    rw [h3] at h2
    cases e with
    | some err =>
      simp only at h2
      simpa [h3, h2] using h1
    | none =>
      simp only at h2
      simpa [h3, h2] using h1

end oracle

namespace models

/-- A failing `BookmarkUser` found no row with the token and left the store as it was. -/
theorem BookmarkUser_err (db : DB) (token username e : String)
    (h : (BookmarkUser db token username).err = some e) :
    (∀ r ∈ db.tokens, r.token ≠ token) ∧ (BookmarkUser db token username).db = db := by
  by_cases hk : ∃ r ∈ db.tokens, r.token = token
  · obtain ⟨r, _, _, hid⟩ := getTokenID_known db token hk
    simp [BookmarkUser, hid, execInsertBookmark] at h
  · have hall : ∀ r ∈ db.tokens, r.token ≠ token := fun r hr ht => hk ⟨r, hr, ht⟩
    exact ⟨hall, by simp [BookmarkUser, getTokenID_unknown db token hall]⟩

/-- A failing `UnBookmarkUser` found no row with the token and left the store as it was. -/
theorem UnBookmarkUser_err (db : DB) (token username e : String)
    (h : (UnBookmarkUser db token username).err = some e) :
    (∀ r ∈ db.tokens, r.token ≠ token) ∧ (UnBookmarkUser db token username).db = db := by
  by_cases hk : ∃ r ∈ db.tokens, r.token = token
  · obtain ⟨r, _, _, hid⟩ := getTokenID_known db token hk
    simp [UnBookmarkUser, hid, execDeleteBookmark] at h
  · have hall : ∀ r ∈ db.tokens, r.token ≠ token := fun r hr ht => hk ⟨r, hr, ht⟩
    exact ⟨hall, by simp [UnBookmarkUser, getTokenID_unknown db token hall]⟩

end models

namespace handler

/-! ## Facts about the handlers -/

/-- The two copies of `notEmpty` in the source are the same function. -/
theorem notEmpty_eq_oracle (args : List (String × String)) :
    notEmpty args = oracle.notEmpty args := by
  induction args with
  | nil => rfl
  | cons kv rest ih =>
    obtain ⟨key, value⟩ := kv
    simp only [notEmpty, oracle.notEmpty, ih]

/-- With every value non-empty `notEmpty` returns `nil`, in whatever order the
map is visited. -/
theorem notEmpty_range_none (range : oracle.MapRange) (hrange : ∀ l, (range l).Perm l)
    (args : List (String × String)) (h : ∀ kv ∈ args, kv.2 ≠ "") :
    notEmpty (range args) = none := by
  rw [notEmpty_eq_oracle, oracle.notEmpty_eq_none_iff]
  intro kv hkv
  exact h kv ((hrange args).mem_iff.1 hkv)

/-- With some value empty `notEmpty` returns "<key> is missing" for a key whose
value is empty, in whatever order the map is visited. -/
theorem notEmpty_range_some (range : oracle.MapRange) (hrange : ∀ l, (range l).Perm l)
    (args : List (String × String)) (h : ∃ kv ∈ args, kv.2 = "") :
    ∃ kv ∈ args, kv.2 = "" ∧ notEmpty (range args) = some (kv.1 ++ " is missing") := by
  cases hn : notEmpty (range args) with
  | none =>
    rw [notEmpty_eq_oracle, oracle.notEmpty_eq_none_iff] at hn
    obtain ⟨kv, hkv, hval⟩ := h
    exact absurd hval (hn kv ((hrange args).mem_iff.2 hkv))
  | some err =>
    rw [notEmpty_eq_oracle] at hn
    obtain ⟨kv, hkv, hval, herr⟩ := oracle.notEmpty_eq_some _ _ hn
    exact ⟨kv, (hrange args).mem_iff.1 hkv, hval, by rw [herr]⟩

/-- The fields `createUser` requires are non-empty. -/
theorem createUser_valid (range : oracle.MapRange) (hrange : ∀ l, (range l).Perm l)
    (data : models.Database) (hu : data.Username ≠ "") (hp : data.Password ≠ "") :
    notEmpty (range [("username", data.Username), ("password", data.Password)]) = none := by
  apply notEmpty_range_none range hrange
  intro kv hkv
  simp only [List.mem_cons, List.mem_singleton, List.not_mem_nil, or_false] at hkv
  rcases hkv with h | h <;> subst h <;> assumption

/-- The field `dropUser` requires is non-empty. -/
theorem dropUser_valid (range : oracle.MapRange) (hrange : ∀ l, (range l).Perm l)
    (data : models.Database) (hu : data.Username ≠ "") :
    notEmpty (range [("username", data.Username)]) = none := by
  apply notEmpty_range_none range hrange
  intro kv hkv
  simp only [List.mem_singleton] at hkv
  subst hkv
  exact hu

/-! ## The claims about the create and drop flows -/

/-- C11: for a create request with non-empty name and secret, when the
tablespace creation fails, `CreateUser` has issued that one statement only (no
login creation, no grant, no drop), the catalogue of the target database is as
it was, the datastore is as it was for every implementation (so no bookmark was
inserted), and the response is status 500 with the tablespace-creation error. -/
theorem createUser_tablespace_failure {σ : Type} (ds : models.Datastore σ)
    (range rangeOra : oracle.MapRange) (hrange : ∀ l, (range l).Perm l)
    (hrangeOra : ∀ l, (rangeOra l).Perm l) (store : σ) (db : oracle.DB)
    (data : models.Database) (hu : data.Username ≠ "") (hp : data.Password ≠ "")
    (e : String) (db1 : oracle.DB)
    (h1 : oracle.Exec db (.createTablespace data.Username) = (some e, db1)) :
    (createUser ds (oracle.asOraDB rangeOra) range store db data).response
      = { status := 500,
          body := .error ("could not create tablespace (" ++ data.Username ++ "): " ++ e) } ∧
    (createUser ds (oracle.asOraDB rangeOra) range store db data).ora.log
      = db.log ++ [.createTablespace data.Username] ∧
    (createUser ds (oracle.asOraDB rangeOra) range store db data).ora.target = db.target ∧
    (createUser ds (oracle.asOraDB rangeOra) range store db data).store = store := by
  have hv := createUser_valid range hrange data hu hp
  have hvo := oracle.CreateUser_valid rangeOra hrangeOra data.Username data.Password hu hp
  have hl := oracle.Exec_log db (.createTablespace data.Username)
  have ht := oracle.Exec_error_target db db1 _ e h1
  rw [h1] at hl
  simp only at hl
  have hc : oracle.CreateUser rangeOra db data.Username data.Password
      = (some ("could not create tablespace (" ++ data.Username ++ "): " ++ e), db1) := by
    simp [oracle.CreateUser, hvo, h1]
  simp [createUser, hv, oracle.asOraDB, hc, hl, ht, respondErr, StatusInternalServerError]

/-- Witness of C11: creating "bob" where a tablespace of that name exists. -/
theorem createUser_tablespace_failure_witness :
    (createUser testStore (oracle.asOraDB id) id models.twoRowDB oracle.bobDB
        (createBob "t1")).response
      = { status := 500,
          body := .error ("could not create tablespace (bob): " ++
            "ORA-01543: tablespace already exists") } ∧
    (createUser testStore (oracle.asOraDB id) id models.twoRowDB oracle.bobDB
        (createBob "t1")).ora.log = [.createTablespace "bob"] ∧
    (createUser testStore (oracle.asOraDB id) id models.twoRowDB oracle.bobDB
        (createBob "t1")).ora.target = oracle.bobDB.target ∧
    (createUser testStore (oracle.asOraDB id) id models.twoRowDB oracle.bobDB
        (createBob "t1")).store = models.twoRowDB :=
  createUser_tablespace_failure testStore id id (fun _ => List.Perm.refl _)
    (fun _ => List.Perm.refl _) models.twoRowDB oracle.bobDB (createBob "t1")
    (by decide) (by decide) "ORA-01543: tablespace already exists"
    (oracle.Exec oracle.bobDB (.createTablespace "bob")).2 (by decide)

/-- C12: for a create request with non-empty name and secret, when the
tablespace and the login are created and the grant fails, `CreateUser` returns
the grant error and has issued exactly create tablespace, create user and
grant (no drop); the account and its tablespace are in the target database
afterwards; the response is status 500 with that error and the datastore is as
it was for every implementation (so no bookmark was inserted). -/
theorem createUser_grant_failure {σ : Type} (ds : models.Datastore σ)
    (range rangeOra : oracle.MapRange) (hrange : ∀ l, (range l).Perm l)
    (hrangeOra : ∀ l, (rangeOra l).Perm l) (store : σ) (db : oracle.DB)
    (data : models.Database) (hu : data.Username ≠ "") (hp : data.Password ≠ "")
    (db1 db2 db3 : oracle.DB) (e : String)
    (h1 : oracle.Exec db (.createTablespace data.Username) = (none, db1))
    (h2 : oracle.Exec db1 (.createUser data.Username data.Username data.Password) = (none, db2))
    (h3 : oracle.Exec db2 (.grantGSB data.Username) = (some e, db3)) :
    (oracle.CreateUser rangeOra db data.Username data.Password).1
      = some ("could not grant role GSB to " ++ data.Username ++ ": " ++ e) ∧
    (createUser ds (oracle.asOraDB rangeOra) range store db data).ora.log
      = db.log ++ [.createTablespace data.Username,
                   .createUser data.Username data.Username data.Password,
                   .grantGSB data.Username] ∧
    data.Username ∈ (createUser ds (oracle.asOraDB rangeOra) range store db data).ora.target.users ∧
    data.Username ∈
      (createUser ds (oracle.asOraDB rangeOra) range store db data).ora.target.tablespaces ∧
    (createUser ds (oracle.asOraDB rangeOra) range store db data).response
      = { status := 500,
          body := .error ("could not grant role GSB to " ++ data.Username ++ ": " ++ e) } ∧
    (createUser ds (oracle.asOraDB rangeOra) range store db data).store = store := by
  have hv := createUser_valid range hrange data hu hp
  have hvo := oracle.CreateUser_valid rangeOra hrangeOra data.Username data.Password hu hp
  have hl1 := oracle.Exec_log db (.createTablespace data.Username)
  have hl2 := oracle.Exec_log db1 (.createUser data.Username data.Username data.Password)
  have hl3 := oracle.Exec_log db2 (.grantGSB data.Username)
  rw [h1] at hl1
  rw [h2] at hl2
  rw [h3] at hl3
  simp only at hl1 hl2 hl3
  have ht1 := oracle.Exec_createTablespace_ok db db1 _ h1
  have ht2 := oracle.Exec_createUser_ok db1 db2 _ _ _ h2
  have ht3 := oracle.Exec_error_target db2 db3 _ e h3
  have hc : oracle.CreateUser rangeOra db data.Username data.Password
      = (some ("could not grant role GSB to " ++ data.Username ++ ": " ++ e), db3) := by
    simp [oracle.CreateUser, hvo, h1, h2, h3]
  refine ⟨by rw [hc], ?_, ?_, ?_, ?_, ?_⟩
  · simp [createUser, hv, oracle.asOraDB, hc, hl3, hl2, hl1]
  · simp [createUser, hv, oracle.asOraDB, hc, ht3, ht2.1]
  · simp [createUser, hv, oracle.asOraDB, hc, ht3, ht2.2, ht1.1]
  · simp [createUser, hv, oracle.asOraDB, hc, respondErr, StatusInternalServerError]
  · simp [createUser, hv, oracle.asOraDB, hc]

/-- Witness of C12: creating "bob" on a connection lost before the grant. -/
theorem createUser_grant_failure_witness :
    (oracle.CreateUser id oracle.lostBeforeGrantDB "bob" "pw").1
      = some ("could not grant role GSB to bob: " ++
          "ORA-03113: end-of-file on communication channel") ∧
    (createUser testStore (oracle.asOraDB id) id models.twoRowDB oracle.lostBeforeGrantDB
        (createBob "t1")).ora.log
      = [.createTablespace "bob", .createUser "bob" "bob" "pw", .grantGSB "bob"] ∧
    "bob" ∈ (createUser testStore (oracle.asOraDB id) id models.twoRowDB
        oracle.lostBeforeGrantDB (createBob "t1")).ora.target.users ∧
    "bob" ∈ (createUser testStore (oracle.asOraDB id) id models.twoRowDB
        oracle.lostBeforeGrantDB (createBob "t1")).ora.target.tablespaces ∧
    (createUser testStore (oracle.asOraDB id) id models.twoRowDB oracle.lostBeforeGrantDB
        (createBob "t1")).response
      = { status := 500,
          body := .error ("could not grant role GSB to bob: " ++
            "ORA-03113: end-of-file on communication channel") } ∧
    (createUser testStore (oracle.asOraDB id) id models.twoRowDB oracle.lostBeforeGrantDB
        (createBob "t1")).store = models.twoRowDB :=
  createUser_grant_failure testStore id id (fun _ => List.Perm.refl _)
    (fun _ => List.Perm.refl _) models.twoRowDB oracle.lostBeforeGrantDB (createBob "t1")
    (by decide) (by decide)
    (oracle.Exec oracle.lostBeforeGrantDB (.createTablespace "bob")).2
    (oracle.Exec (oracle.Exec oracle.lostBeforeGrantDB (.createTablespace "bob")).2
      (.createUser "bob" "bob" "pw")).2
    (oracle.Exec (oracle.Exec (oracle.Exec oracle.lostBeforeGrantDB
      (.createTablespace "bob")).2 (.createUser "bob" "bob" "pw")).2 (.grantGSB "bob")).2
    "ORA-03113: end-of-file on communication channel" (by decide) (by decide) (by decide)

/-- C13: when the account-deletion statement fails, `DropUser` has issued that
statement only (no tablespace deletion) and returns the error that wraps its
failure; for a drop request with a non-empty name the flow then responds with
status 500 and leaves the datastore as it was for every implementation (so
`UnBookmarkUser` was not called).  When the account deletion succeeds and the
tablespace deletion fails, the error of `DropUser` wraps the failure of the
tablespace deletion. -/
theorem dropUser_failure {σ : Type} (ds : models.Datastore σ)
    (range : oracle.MapRange) (hrange : ∀ l, (range l).Perm l)
    (rangeOra : oracle.MapRange) (store : σ) (db : oracle.DB)
    (data : models.Database) (hu : data.Username ≠ "") :
    (∀ e db1, oracle.Exec db (.dropUser data.Username) = (some e, db1) →
      oracle.DropUser db data.Username
        = (some ("could not drop user (" ++ data.Username ++ "): " ++ e), db1) ∧
      (oracle.DropUser db data.Username).2.log = db.log ++ [.dropUser data.Username] ∧
      (dropUser ds (oracle.asOraDB rangeOra) range store db data).response
        = { status := 500, body := .error "Internal Server Error" } ∧
      (dropUser ds (oracle.asOraDB rangeOra) range store db data).store = store) ∧
    (∀ db1 e db2, oracle.Exec db (.dropUser data.Username) = (none, db1) →
      oracle.Exec db1 (.dropTablespace data.Username) = (some e, db2) →
      (oracle.DropUser db data.Username).1
        = some ("could not drop tablespace (" ++ data.Username ++ "): " ++ e)) := by
  have hv := dropUser_valid range hrange data hu
  constructor
  · intro e db1 h1
    have hl := oracle.Exec_log db (.dropUser data.Username)
    rw [h1] at hl
    simp only at hl
    have hd : oracle.DropUser db data.Username
        = (some ("could not drop user (" ++ data.Username ++ "): " ++ e), db1) := by
      simp [oracle.DropUser, h1]
    refine ⟨hd, by rw [hd]; exact hl, ?_, ?_⟩
    · simp [dropUser, hv, oracle.asOraDB, hd, respondErr, StatusInternalServerError]
    · simp [dropUser, hv, oracle.asOraDB, hd]
  · intro db1 e db2 h1 h2
    simp [oracle.DropUser, h1, h2]

/-- Witness of C13: dropping "bob" where no such account exists, and where the
account exists without a tablespace of its name. -/
theorem dropUser_failure_witness :
    (oracle.DropUser oracle.freshDB "bob"
        = (some ("could not drop user (bob): " ++ "ORA-01918: user does not exist"),
           (oracle.Exec oracle.freshDB (.dropUser "bob")).2) ∧
      (oracle.DropUser oracle.freshDB "bob").2.log = [.dropUser "bob"] ∧
      (dropUser testStore (oracle.asOraDB id) id models.twoRowDB oracle.freshDB
          (createBob "t2")).response
        = { status := 500, body := .error "Internal Server Error" } ∧
      (dropUser testStore (oracle.asOraDB id) id models.twoRowDB oracle.freshDB
          (createBob "t2")).store = models.twoRowDB) ∧
    (oracle.DropUser oracle.userExistsDB "bob").1
      = some ("could not drop tablespace (bob): " ++ "ORA-00959: tablespace does not exist") :=
  ⟨(dropUser_failure testStore id (fun _ => List.Perm.refl _) id models.twoRowDB
      oracle.freshDB (createBob "t2") (by decide)).1 _ _ (by decide),
   (dropUser_failure testStore id (fun _ => List.Perm.refl _) id models.twoRowDB
      oracle.userExistsDB (createBob "t2") (by decide)).2
      (oracle.Exec oracle.userExistsDB (.dropUser "bob")).2 _
      (oracle.Exec (oracle.Exec oracle.userExistsDB (.dropUser "bob")).2
        (.dropTablespace "bob")).2 (by decide) (by decide)⟩

/-- The response and the log lines of `createUser` do not depend on what
`DropUser` does or returns: the value of the compensating call is discarded. -/
theorem createUser_ignores_DropUser {σ τ : Type} (ds : models.Datastore σ)
    (oradb : oracle.OraDB τ) (drop : τ → String → Option String × τ)
    (range : oracle.MapRange) (store : σ) (ora : τ) (data : models.Database) :
    (createUser ds { oradb with DropUser := drop } range store ora data).response
      = (createUser ds oradb range store ora data).response ∧
    (createUser ds { oradb with DropUser := drop } range store ora data).logged
      = (createUser ds oradb range store ora data).logged := by
  unfold createUser
  cases notEmpty (range [("username", data.Username), ("password", data.Password)]) with
  | some err => exact ⟨rfl, rfl⟩
  | none =>
    simp only
    cases oradb.CreateUser ora data.Username data.Password with
    | mk e ora1 =>
      cases e with
      | some err => exact ⟨rfl, rfl⟩
      | none =>
        simp only
        cases ds.BookmarkUser store data.Token data.Username with
        | mk e1 store1 =>
          cases e1 with
          | some err => exact ⟨rfl, rfl⟩
          | none => exact ⟨rfl, rfl⟩

/-- C14 (counterexample): "bob" is created on a connection that is lost after
the three statements of `CreateUser`, under a token the store does not know.
`CreateUser` succeeds, `BookmarkUser` fails, the flow issues `DROP user bob`,
which fails, and responds with status 500 "could not bookmark user": the
account is still in the target database. -/
theorem createUser_bookmark_failure_account_remains :
    (oracle.CreateUser id oracle.lostAfterCreateDB "bob" "pw").1 = none ∧
    (models.BookmarkUser models.twoRowDB "t3" "bob").err
      = some "could not get tokenID: sql: no rows in result set" ∧
    (createUser testStore (oracle.asOraDB id) id models.twoRowDB oracle.lostAfterCreateDB
        (createBob "t3")).response
      = { status := 500, body := .error "could not bookmark user" } ∧
    (createUser testStore (oracle.asOraDB id) id models.twoRowDB oracle.lostAfterCreateDB
        (createBob "t3")).ora.log
      = [.createTablespace "bob", .createUser "bob" "bob" "pw", .grantGSB "bob",
         .dropUser "bob"] ∧
    "bob" ∈ (createUser testStore (oracle.asOraDB id) id models.twoRowDB
        oracle.lostAfterCreateDB (createBob "t3")).ora.target.users := by
  decide

/-- C14 (amended): for a create request with non-empty name and secret in which
`CreateUser` succeeds and `BookmarkUser` then fails, the flow calls `DropUser`
on the name just created; when the account-deletion statement of that call
succeeds the account is absent from the target database afterwards; the store
is as it was and holds no bookmark that links a row of the token to the name;
the response is status 500 with the message "could not bookmark user". -/
theorem createUser_bookmark_failure (aes : models.AES) (key : String)
    (sum256hex : String → String) (rnd : Nat)
    (range rangeOra : oracle.MapRange) (hrange : ∀ l, (range l).Perm l)
    (store : models.DB) (db db1 : oracle.DB)
    (data : models.Database) (hu : data.Username ≠ "") (hp : data.Password ≠ "")
    (hc : oracle.CreateUser rangeOra db data.Username data.Password = (none, db1))
    (e : String) (hb : (models.BookmarkUser store data.Token data.Username).err = some e) :
    (createUser (models.asDatastore aes key sum256hex rnd) (oracle.asOraDB rangeOra) range
        store db data).ora = (oracle.DropUser db1 data.Username).2 ∧
    (∃ rest, (createUser (models.asDatastore aes key sum256hex rnd) (oracle.asOraDB rangeOra)
        range store db data).ora.log = db1.log ++ oracle.Stmt.dropUser data.Username :: rest) ∧
    (∀ db2, oracle.Exec db1 (.dropUser data.Username) = (none, db2) →
      data.Username ∉ (createUser (models.asDatastore aes key sum256hex rnd)
        (oracle.asOraDB rangeOra) range store db data).ora.target.users) ∧
    (createUser (models.asDatastore aes key sum256hex rnd) (oracle.asOraDB rangeOra) range
        store db data).store = store ∧
    (¬ ∃ r ∈ store.tokens, r.token = data.Token ∧
        ∃ b ∈ (createUser (models.asDatastore aes key sum256hex rnd)
          (oracle.asOraDB rangeOra) range store db data).store.bookmarks,
          b.token_id = r.id ∧ b.dbname = data.Username) ∧
    (createUser (models.asDatastore aes key sum256hex rnd) (oracle.asOraDB rangeOra) range
        store db data).response
      = { status := 500, body := .error "could not bookmark user" } := by
  have hv := createUser_valid range hrange data hu hp
  obtain ⟨hunknown, hstore⟩ := models.BookmarkUser_err store data.Token data.Username e hb
  have hora : (createUser (models.asDatastore aes key sum256hex rnd) (oracle.asOraDB rangeOra)
      range store db data).ora = (oracle.DropUser db1 data.Username).2 := by
    simp [createUser, hv, oracle.asOraDB, models.asDatastore, hc, hb]
  refine ⟨hora, ?_, ?_, ?_, ?_, ?_⟩
  · rw [hora]
    exact oracle.DropUser_log db1 data.Username
  · intro db2 h2
    rw [hora]
    exact oracle.DropUser_absent db1 db2 data.Username h2
  · simp [createUser, hv, oracle.asOraDB, models.asDatastore, hc, hb, hstore]
  · rintro ⟨r, hr, ht, _⟩
    exact hunknown r hr ht
  · simp [createUser, hv, oracle.asOraDB, models.asDatastore, hc, hb, respondErr,
      StatusInternalServerError]

/-- Witness of C14 (amended): creating "bob" in an empty target database under
the token "t3", which `twoRowDB` does not know. -/
theorem createUser_bookmark_failure_witness :
    (models.BookmarkUser models.twoRowDB "t3" "bob").err
      = some "could not get tokenID: sql: no rows in result set" ∧
    "bob" ∉ (createUser testStore (oracle.asOraDB id) id models.twoRowDB oracle.freshDB
        (createBob "t3")).ora.target.users ∧
    (createUser testStore (oracle.asOraDB id) id models.twoRowDB oracle.freshDB
        (createBob "t3")).store = models.twoRowDB ∧
    (createUser testStore (oracle.asOraDB id) id models.twoRowDB oracle.freshDB
        (createBob "t3")).response
      = { status := 500, body := .error "could not bookmark user" } :=
  have h := createUser_bookmark_failure models.toyAES "k" models.testDigest 7 id id
    (fun _ => List.Perm.refl _) models.twoRowDB oracle.freshDB
    (oracle.CreateUser id oracle.freshDB "bob" "pw").2 (createBob "t3")
    (by decide) (by decide) (by decide)
    "could not get tokenID: sql: no rows in result set" (by decide)
  ⟨by decide, h.2.2.1 _ rfl, h.2.2.2.1, h.2.2.2.2.2⟩

/-- C15 (the code departs from the claim): "bob" is created under a token the
store does not know, once on a connection that is lost after the statements of
`CreateUser`, once on a sound connection.  The compensating `DropUser` fails in
the first case and succeeds in the second; the response and the log lines of
the flow are the same in both, and the error of `DropUser` is in neither. -/
theorem createUser_swallows_compensation_failure :
    (oracle.DropUser (oracle.CreateUser id oracle.lostAfterCreateDB "bob" "pw").2 "bob").1
      = some ("could not drop user (bob): " ++
          "ORA-03113: end-of-file on communication channel") ∧
    (oracle.DropUser (oracle.CreateUser id oracle.freshDB "bob" "pw").2 "bob").1 = none ∧
    (createUser testStore (oracle.asOraDB id) id models.twoRowDB oracle.lostAfterCreateDB
        (createBob "t3")).response
      = (createUser testStore (oracle.asOraDB id) id models.twoRowDB oracle.freshDB
        (createBob "t3")).response ∧
    (createUser testStore (oracle.asOraDB id) id models.twoRowDB oracle.lostAfterCreateDB
        (createBob "t3")).response
      = { status := 500, body := .error "could not bookmark user" } ∧
    (createUser testStore (oracle.asOraDB id) id models.twoRowDB oracle.lostAfterCreateDB
        (createBob "t3")).logged
      = ["could not get tokenID: sql: no rows in result set"] ∧
    (createUser testStore (oracle.asOraDB id) id models.twoRowDB oracle.freshDB
        (createBob "t3")).logged
      = ["could not get tokenID: sql: no rows in result set"] := by
  decide

/-- C16: for a drop request with a non-empty name in which `DropUser` succeeds
and `UnBookmarkUser` then fails, the response is status 200 with the message
"<name> deleted, but could not unbookmark it", and the store, its bookmark rows
included, is as it was. -/
theorem dropUser_unbookmark_failure {τ : Type} (aes : models.AES) (key : String)
    (sum256hex : String → String) (rnd : Nat) (oradb : oracle.OraDB τ)
    (range : oracle.MapRange) (hrange : ∀ l, (range l).Perm l)
    (store : models.DB) (ora ora1 : τ)
    (data : models.Database) (hu : data.Username ≠ "")
    (hd : oradb.DropUser ora data.Username = (none, ora1))
    (e : String) (hb : (models.UnBookmarkUser store data.Token data.Username).err = some e) :
    (dropUser (models.asDatastore aes key sum256hex rnd) oradb range store ora data).response
      = { status := 200,
          body := .error (data.Username ++ " deleted, but could not unbookmark it") } ∧
    (dropUser (models.asDatastore aes key sum256hex rnd) oradb range store ora data).store
      = store ∧
    (dropUser (models.asDatastore aes key sum256hex rnd) oradb range store ora data).store.bookmarks
      = store.bookmarks ∧
    (dropUser (models.asDatastore aes key sum256hex rnd) oradb range store ora data).ora
      = ora1 := by
  have hv := dropUser_valid range hrange data hu
  obtain ⟨_, hstore⟩ := models.UnBookmarkUser_err store data.Token data.Username e hb
  have hs : (dropUser (models.asDatastore aes key sum256hex rnd) oradb range store ora
      data).store = store := by
    simp [dropUser, hv, models.asDatastore, hd, hb, hstore]
  refine ⟨?_, hs, by rw [hs], ?_⟩
  · simp [dropUser, hv, models.asDatastore, hd, hb, respondErr, StatusOK]
  · simp [dropUser, hv, models.asDatastore, hd, hb]

/-- Witness of C16: dropping "bob" from a target database that holds it, under
the token "t3", which `twoRowDB` does not know. -/
theorem dropUser_unbookmark_failure_witness :
    (oracle.DropUser oracle.bobDB "bob").1 = none ∧
    (models.UnBookmarkUser models.twoRowDB "t3" "bob").err
      = some "could not get tokenID: sql: no rows in result set" ∧
    (dropUser testStore (oracle.asOraDB id) id models.twoRowDB oracle.bobDB
        (createBob "t3")).response
      = { status := 200, body := .error ("bob" ++ " deleted, but could not unbookmark it") } ∧
    (dropUser testStore (oracle.asOraDB id) id models.twoRowDB oracle.bobDB
        (createBob "t3")).store = models.twoRowDB :=
  have h := dropUser_unbookmark_failure models.toyAES "k" models.testDigest 7
    (oracle.asOraDB id) id (fun _ => List.Perm.refl _) models.twoRowDB oracle.bobDB
    (oracle.DropUser oracle.bobDB "bob").2 (createBob "t3") (by decide) (by decide)
    "could not get tokenID: sql: no rows in result set" (by decide)
  ⟨by decide, by decide, h.1, h.2.1⟩

/-- C17 (counterexample): a create request under the token "t3", which the
store does not know, gets status 500 "internal server error", not a client
error about the token; a create request under the known token "t1" whose
target database cannot be reached gets the same response. -/
theorem OracleMethodRouter_unknown_token_is_internal_error :
    (∀ r ∈ models.twoRowDB.tokens, r.token ≠ "t3") ∧
    (OracleMethodRouter testStore oracle.reachingDriver id id models.twoRowDB
        { Method := "POST", decoded := .ok (createBob "t3") }).response
      = { status := 500, body := .error "internal server error" } ∧
    (∃ r ∈ models.twoRowDB.tokens, r.token = "t1") ∧
    (OracleMethodRouter testStore oracle.unreachableDriver id id models.twoRowDB
        { Method := "POST", decoded := .ok (createBob "t1") }).response
      = (OracleMethodRouter testStore oracle.reachingDriver id id models.twoRowDB
        { Method := "POST", decoded := .ok (createBob "t3") }).response := by
  decide

/-- C17 (amended): for a request with a non-empty token, when the token does
not resolve (`Get` fails) `OracleMethodRouter` responds with status 500 and the
fixed message "internal server error", and when the token resolves but the
target database cannot be opened or pinged it responds with the same status and
message; in both cases the datastore is as it was and no handle is left.  The
response is this fixed value whatever address, login and secret are stored. -/
theorem OracleMethodRouter_NewDB_failure {σ : Type} (ds : models.Datastore σ)
    (driver : oracle.Driver) (range rangeOra : oracle.MapRange) (store : σ) (req : Request)
    (data : models.Database) (hdec : req.decoded = .ok data) (htok : data.Token ≠ "") :
    (∀ e, ds.Get store data.Token = .error e →
      (OracleMethodRouter ds driver range rangeOra store req).response
        = { status := 500, body := .error "internal server error" } ∧
      (OracleMethodRouter ds driver range rangeOra store req).store = store ∧
      (OracleMethodRouter ds driver range rangeOra store req).ora = none) ∧
    (∀ cred, ds.Get store data.Token = .ok cred →
      ((∃ e, driver.sqlOpen (cred.Username ++ ":" ++ cred.Password ++ "@" ++ cred.DBAddr ++
          "/" ++ cred.DBName) = .error e) ∨
       (∃ db e, driver.sqlOpen (cred.Username ++ ":" ++ cred.Password ++ "@" ++ cred.DBAddr ++
          "/" ++ cred.DBName) = .ok db ∧ driver.ping db = some e)) →
      (OracleMethodRouter ds driver range rangeOra store req).response
        = { status := 500, body := .error "internal server error" } ∧
      (OracleMethodRouter ds driver range rangeOra store req).store = store ∧
      (OracleMethodRouter ds driver range rangeOra store req).ora = none) := by
  have hsz : ¬ data.Token.utf8ByteSize ≤ 0 :=
    fun h => htok ((oracle.utf8ByteSize_le_zero_iff data.Token).1 h)
  constructor
  · intro e hg
    simp [OracleMethodRouter, hdec, hsz, oracle.NewDB, hg, respondErr,
      StatusInternalServerError]
  · intro cred hg hfail
    rcases hfail with ⟨e, ho⟩ | ⟨db, e, ho, hpg⟩
    · simp [OracleMethodRouter, hdec, hsz, oracle.NewDB, hg, ho, respondErr,
        StatusInternalServerError]
    · simp [OracleMethodRouter, hdec, hsz, oracle.NewDB, hg, ho, hpg, respondErr,
        StatusInternalServerError]

/-- Witness of C17 (amended): the token "t3" does not resolve in `twoRowDB`; the
token "t1" resolves and the target database has no listener. -/
theorem OracleMethodRouter_NewDB_failure_witness :
    ((OracleMethodRouter testStore oracle.reachingDriver id id models.twoRowDB
        { Method := "POST", decoded := .ok (createBob "t3") }).response
      = { status := 500, body := .error "internal server error" } ∧
     (OracleMethodRouter testStore oracle.reachingDriver id id models.twoRowDB
        { Method := "POST", decoded := .ok (createBob "t3") }).store = models.twoRowDB ∧
     (OracleMethodRouter testStore oracle.reachingDriver id id models.twoRowDB
        { Method := "POST", decoded := .ok (createBob "t3") }).ora = none) ∧
    ((OracleMethodRouter testStore oracle.unreachableDriver id id models.twoRowDB
        { Method := "DELETE", decoded := .ok (createBob "t1") }).response
      = { status := 500, body := .error "internal server error" } ∧
     (OracleMethodRouter testStore oracle.unreachableDriver id id models.twoRowDB
        { Method := "DELETE", decoded := .ok (createBob "t1") }).store = models.twoRowDB ∧
     (OracleMethodRouter testStore oracle.unreachableDriver id id models.twoRowDB
        { Method := "DELETE", decoded := .ok (createBob "t1") }).ora = none) :=
  ⟨(OracleMethodRouter_NewDB_failure testStore oracle.reachingDriver id id models.twoRowDB
      { Method := "POST", decoded := .ok (createBob "t3") } (createBob "t3") rfl
      (by decide)).1
      ("could not decode password, check your database secret: " ++
        "sql: no rows in result set") (by decide),
   (OracleMethodRouter_NewDB_failure testStore oracle.unreachableDriver id id models.twoRowDB
      { Method := "DELETE", decoded := .ok (createBob "t1") } (createBob "t1") rfl
      (by decide)).2
      { Token := "", Typ := "oracle", DBAddr := "db1", DBName := "s1", Username := "u1",
        Password := "p1" } (by decide)
      (Or.inr ⟨oracle.freshDB, "ORA-12541: TNS:no listener", rfl, rfl⟩)⟩

/-- C18: for a request whose body decodes, each handler checks its required
fields first.  When one of them is empty the response is status 400 with
"<field> is missing" for a required field that is empty, and the datastore and
the handle of the target database are as they were for every implementation of
the two interfaces (no operation of `Datastore`, no `CreateUser` and no
`DropUser` ran).  When all of them are non-empty the status is not 400.  The
required fields are dbaddr, dbname, username, password for register, those and
token for update, token for unregister, username and password for createUser,
username for dropUser. -/
theorem handlers_validate_first {σ τ : Type} (ds : models.Datastore σ) (oradb : oracle.OraDB τ)
    (range : oracle.MapRange) (hrange : ∀ l, (range l).Perm l) (store : σ) (ora : τ)
    (req : Request) (data : models.Database) (hdec : req.decoded = .ok data) :
    (((∃ kv ∈ [("dbaddr", data.DBAddr), ("dbname", data.DBName), ("username", data.Username),
          ("password", data.Password)], kv.2 = "") →
        ∃ kv ∈ [("dbaddr", data.DBAddr), ("dbname", data.DBName), ("username", data.Username),
          ("password", data.Password)], kv.2 = "" ∧
          (registerDatabase ds range store req).response
            = { status := 400, body := .error (kv.1 ++ " is missing") } ∧
          (registerDatabase ds range store req).store = store) ∧
     ((∀ kv ∈ [("dbaddr", data.DBAddr), ("dbname", data.DBName), ("username", data.Username),
          ("password", data.Password)], kv.2 ≠ "") →
        (registerDatabase ds range store req).response.status ≠ 400)) ∧
    (((∃ kv ∈ [("token", data.Token), ("dbaddr", data.DBAddr), ("dbname", data.DBName),
          ("username", data.Username), ("password", data.Password)], kv.2 = "") →
        ∃ kv ∈ [("token", data.Token), ("dbaddr", data.DBAddr), ("dbname", data.DBName),
          ("username", data.Username), ("password", data.Password)], kv.2 = "" ∧
          (updateDatabase ds range store req).response
            = { status := 400, body := .error (kv.1 ++ " is missing") } ∧
          (updateDatabase ds range store req).store = store) ∧
     ((∀ kv ∈ [("token", data.Token), ("dbaddr", data.DBAddr), ("dbname", data.DBName),
          ("username", data.Username), ("password", data.Password)], kv.2 ≠ "") →
        (updateDatabase ds range store req).response.status ≠ 400)) ∧
    (((∃ kv ∈ [("token", data.Token)], kv.2 = "") →
        ∃ kv ∈ [("token", data.Token)], kv.2 = "" ∧
          (unregisterDatabase ds range store req).response
            = { status := 400, body := .error (kv.1 ++ " is missing") } ∧
          (unregisterDatabase ds range store req).store = store) ∧
     ((∀ kv ∈ [("token", data.Token)], kv.2 ≠ "") →
        (unregisterDatabase ds range store req).response.status ≠ 400)) ∧
    (((∃ kv ∈ [("username", data.Username), ("password", data.Password)], kv.2 = "") →
        ∃ kv ∈ [("username", data.Username), ("password", data.Password)], kv.2 = "" ∧
          (createUser ds oradb range store ora data).response
            = { status := 400, body := .error (kv.1 ++ " is missing") } ∧
          (createUser ds oradb range store ora data).store = store ∧
          (createUser ds oradb range store ora data).ora = ora) ∧
     ((∀ kv ∈ [("username", data.Username), ("password", data.Password)], kv.2 ≠ "") →
        (createUser ds oradb range store ora data).response.status ≠ 400)) ∧
    (((∃ kv ∈ [("username", data.Username)], kv.2 = "") →
        ∃ kv ∈ [("username", data.Username)], kv.2 = "" ∧
          (dropUser ds oradb range store ora data).response
            = { status := 400, body := .error (kv.1 ++ " is missing") } ∧
          (dropUser ds oradb range store ora data).store = store ∧
          (dropUser ds oradb range store ora data).ora = ora) ∧
     ((∀ kv ∈ [("username", data.Username)], kv.2 ≠ "") →
        (dropUser ds oradb range store ora data).response.status ≠ 400)) := by
  refine ⟨⟨?_, ?_⟩, ⟨?_, ?_⟩, ⟨?_, ?_⟩, ⟨?_, ?_⟩, ⟨?_, ?_⟩⟩
  · intro h
    obtain ⟨kv, hkv, hval, hn⟩ := notEmpty_range_some range hrange _ h
    exact ⟨kv, hkv, hval, by simp [registerDatabase, hdec, hn, respondErr, StatusBadRequest],
      by simp [registerDatabase, hdec, hn]⟩
  · intro h
    have hn := notEmpty_range_none range hrange _ h
    simp only [registerDatabase, hdec, hn]
    rcases ds.RegisterDatabase store data with ⟨_ | err, store1, data1⟩ <;>
      simp [respondErr, StatusInternalServerError, StatusCreated]
  · intro h
    obtain ⟨kv, hkv, hval, hn⟩ := notEmpty_range_some range hrange _ h
    exact ⟨kv, hkv, hval, by simp [updateDatabase, hdec, hn, respondErr, StatusBadRequest],
      by simp [updateDatabase, hdec, hn]⟩
  · intro h
    have hn := notEmpty_range_none range hrange _ h
    simp only [updateDatabase, hdec, hn]
    rcases ds.UpdateDatabase store data with ⟨_ | err, store1⟩ <;>
      simp [respondErr, respondMessage, StatusInternalServerError, StatusOK]
  · intro h
    obtain ⟨kv, hkv, hval, hn⟩ := notEmpty_range_some range hrange _ h
    exact ⟨kv, hkv, hval, by simp [unregisterDatabase, hdec, hn, respondErr, StatusBadRequest],
      by simp [unregisterDatabase, hdec, hn]⟩
  · intro h
    have hn := notEmpty_range_none range hrange _ h
    simp only [unregisterDatabase, hdec, hn]
    rcases ds.UnregisterDatabase store data with ⟨_ | err, store1⟩ <;>
      simp [respondErr, respondMessage, StatusInternalServerError, StatusOK]
  · intro h
    obtain ⟨kv, hkv, hval, hn⟩ := notEmpty_range_some range hrange _ h
    exact ⟨kv, hkv, hval, by simp [createUser, hn, respondErr, StatusBadRequest],
      by simp [createUser, hn], by simp [createUser, hn]⟩
  · intro h
    have hn := notEmpty_range_none range hrange _ h
    simp only [createUser, hn]
    rcases oradb.CreateUser ora data.Username data.Password with ⟨_ | err, ora1⟩
    · rcases ds.BookmarkUser store data.Token data.Username with ⟨_ | err, store1⟩ <;>
        simp [respondErr, respondMessage, StatusInternalServerError, StatusCreated]
    · simp [respondErr, StatusInternalServerError]
  · intro h
    obtain ⟨kv, hkv, hval, hn⟩ := notEmpty_range_some range hrange _ h
    exact ⟨kv, hkv, hval, by simp [dropUser, hn, respondErr, StatusBadRequest],
      by simp [dropUser, hn], by simp [dropUser, hn]⟩
  · intro h
    have hn := notEmpty_range_none range hrange _ h
    simp only [dropUser, hn]
    rcases oradb.DropUser ora data.Username with ⟨_ | err, ora1⟩
    · rcases ds.UnBookmarkUser store data.Token data.Username with ⟨_ | err, store1⟩ <;>
        simp [respondErr, respondMessage, StatusOK]
    · simp [respondErr, StatusInternalServerError]

/-- Witness of C18: a register request without a password is answered with
"password is missing" and the store is untouched; a complete create request for
"bob" is not answered with status 400. -/
theorem handlers_validate_first_witness :
    (∃ kv ∈ [("dbaddr", "db3"), ("dbname", "s3"), ("username", "u3"), ("password", "")],
      kv.2 = "" ∧
      (registerDatabase testStore id models.twoRowDB
        { Method := "POST",
          decoded := .ok { Token := "", Typ := "", DBAddr := "db3", DBName := "s3",
                           Username := "u3", Password := "" } }).response
        = { status := 400, body := .error (kv.1 ++ " is missing") } ∧
      (registerDatabase testStore id models.twoRowDB
        { Method := "POST",
          decoded := .ok { Token := "", Typ := "", DBAddr := "db3", DBName := "s3",
                           Username := "u3", Password := "" } }).store = models.twoRowDB) ∧
    (createUser testStore (oracle.asOraDB id) id models.twoRowDB oracle.freshDB
        (createBob "t1")).response.status ≠ 400 :=
  ⟨(handlers_validate_first testStore (oracle.asOraDB id) id (fun _ => List.Perm.refl _)
      models.twoRowDB oracle.freshDB
      { Method := "POST",
        decoded := .ok { Token := "", Typ := "", DBAddr := "db3", DBName := "s3",
                         Username := "u3", Password := "" } }
      { Token := "", Typ := "", DBAddr := "db3", DBName := "s3", Username := "u3",
        Password := "" } rfl).1.1 (by decide),
   (handlers_validate_first testStore (oracle.asOraDB id) id (fun _ => List.Perm.refl _)
      models.twoRowDB oracle.freshDB
      { Method := "POST", decoded := .ok (createBob "t1") } (createBob "t1") rfl).2.2.2.1.2
      (by decide)⟩

end handler

end Banquette
